import Mathlib

/-!
Shallow embedding of the ethrex LEVM interpreter core (crates/vm/levm):
the state snapshot/restore discipline, the CALL/CREATE subcall protocol
(`generic_call`, `generic_create`), SSTORE gas-refund accounting,
SELFDESTRUCT, the `*COPY` opcode family, and the storage-slot cache
(`access_storage_slot` / `update_account_storage`).

Machine integers are modelled as `Nat` with explicit bounds checks where the
source uses checked arithmetic (`u64` against `2^64 - 1`, `U256` against
`2^256`).  Hash maps and hash sets are modelled as association lists and
lists with membership-preserving insertion; the observable operations
(lookup, insert, membership) mirror the source.  Fallible code returns
`Except VMError`.
-/

namespace Levm

/-- Protocol forks, in chronological order (ethrex `Fork` enum restricted to
the revisions the embedded code branches on). -/
inductive Fork where
  | frontier
  | homestead
  | tangerine
  | spuriousDragon
  | byzantium
  | constantinople
  | istanbul
  | berlin
  | london
  | shanghai
  | cancun
  | prague
  | osaka
deriving DecidableEq

/-- Chronological rank of a fork; the source's `Ord` on `Fork` is modelled by
comparing ranks. -/
def Fork.rank : Fork → Nat
  | .frontier => 0
  | .homestead => 1
  | .tangerine => 2
  | .spuriousDragon => 3
  | .byzantium => 4
  | .constantinople => 5
  | .istanbul => 6
  | .berlin => 7
  | .london => 8
  | .shanghai => 9
  | .cancun => 10
  | .prague => 11
  | .osaka => 12

/-- `OutOfGasError` variants of the source that the embedded code produces. -/
inductive OutOfGasError where
  | ConsumedGasOverflow
  | MaxGasLimitExceeded
  | MemoryExpansion
deriving DecidableEq

/-- `VMError` variants of the source that the embedded code produces. -/
inductive VMError where
  | OutOfGas (e : OutOfGasError)
  | StackOverflow
  | StackUnderflow
  | VeryLargeNumber
  | OutOfBounds
  | OpcodeNotAllowedInStaticContext
  | InvalidOpcode
  | InvalidJump
  | BalanceOverflow
  | BalanceUnderflow
  | GasRefundsOverflow
  | GasRefundsUnderflow
  | AddressAlreadyOccupied
  | RevertOpcode
  | Internal
deriving DecidableEq

/-- Largest `u64` value, the bound of the source's checked 64-bit arithmetic. -/
def U64MAX : Nat := 2 ^ 64 - 1

/-- One plus the largest `U256` value: bound for 256-bit checked addition. -/
def U256MOD : Nat := 2 ^ 256

/-- Association-list lookup, modelling `HashMap::get`. -/
def alookup {α β : Type} [DecidableEq α] : List (α × β) → α → Option β
  | [], _ => none
  | (k, v) :: rest, a => if k = a then some v else alookup rest a

/-- Association-list insert-or-replace, modelling `HashMap::insert`. -/
def ainsert {α β : Type} [DecidableEq α] : List (α × β) → α → β → List (α × β)
  | [], a, b => [(a, b)]
  | (k, v) :: rest, a, b => if k = a then (a, b) :: rest else (k, v) :: ainsert rest a b

/-- Set insertion (no duplicates), modelling `HashSet::insert`. -/
def sinsert {α : Type} [DecidableEq α] (l : List α) (a : α) : List α :=
  if a ∈ l then l else a :: l

/-- A cached storage slot: `original_value` is the transaction-start value,
`current_value` the latest write (vm.rs `StorageSlot`). -/
structure StorageSlot where
  original_value : Nat
  current_value : Nat
deriving DecidableEq

/-- An account as seen by the interpreter: balance, nonce, code and the
per-transaction cached storage slots. -/
structure Account where
  balance : Nat
  nonce : Nat
  code : List Nat
  storage : List (Nat × StorageSlot)
deriving DecidableEq

/-- EIP-161 emptiness: zero balance, zero nonce, empty code. -/
def Account.is_empty (a : Account) : Bool :=
  a.balance == 0 && a.nonce == 0 && a.code.isEmpty

/-- The source's `has_code_or_nonce`: nonempty code or nonzero nonce. -/
def Account.has_code_or_nonce (a : Account) : Bool :=
  !a.code.isEmpty || a.nonce != 0

/-- The account an absent address reads as. -/
def emptyAccount : Account :=
  { balance := 0, nonce := 0, code := [], storage := [] }

/-- Transaction-scoped substate (vm.rs `Substate`): selfdestruct set, warm
accounts, warm storage slots, created accounts. -/
structure Substate where
  selfdestruct_set : List Nat
  touched_accounts : List Nat
  touched_storage_slots : List (Nat × List Nat)
  created_accounts : List Nat
deriving DecidableEq

/-- EIP-1153 transient storage keyed by `(address, key)`. -/
def TransientStorage : Type := List ((Nat × Nat) × Nat)

instance : DecidableEq TransientStorage := by
  unfold TransientStorage
  infer_instance

/-- The narrow read interface to the external world-state store. -/
structure Store where
  getAccount : Nat → Option Account
  getStorageSlot : Nat → Nat → Nat

/-- The mutable interpreter state that `StateBackup` snapshots: the database
cache, the accrued substate, the refund counter and the transient storage. -/
structure VMState where
  cache : List (Nat × Account)
  substate : Substate
  refunded_gas : Nat
  transient_storage : TransientStorage
deriving DecidableEq

/-- vm.rs `StateBackup`: a copy of cache, substate, gas refunds and transient
storage taken at frame entry. -/
structure StateBackup where
  cache : List (Nat × Account)
  substate : Substate
  refunded_gas : Nat
  transient_storage : TransientStorage
deriving DecidableEq

/-- `StateBackup::new` applied to the current state: the snapshot the source
pushes at every frame entry. -/
def stateBackupOf (st : VMState) : StateBackup :=
  { cache := st.cache
    substate := st.substate
    refunded_gas := st.refunded_gas
    transient_storage := st.transient_storage }

/-- vm.rs `VM::restore_state`: overwrite cache, substate, refund counter and
transient storage with the backup. -/
def restore_state (st : VMState) (backup : StateBackup) : VMState :=
  { st with
    cache := backup.cache
    substate := backup.substate
    refunded_gas := backup.refunded_gas
    transient_storage := backup.transient_storage }

/-- A call frame, restricted to the fields the embedded handlers read or
write (call_frame.rs `CallFrame`). -/
structure CallFrame where
  msg_sender : Nat
  /-- The source field is named `to`, a reserved token in Lean. -/
  to_addr : Nat
  code_address : Nat
  bytecode : List Nat
  calldata : List Nat
  msg_value : Nat
  stack : List Nat
  memory : List Nat
  pc : Nat
  gas_limit : Nat
  gas_used : Nat
  sub_return_data : List Nat
  is_static : Bool
  depth : Nat
  is_create : Bool
deriving DecidableEq

/-- `CallFrame::new` with the source's argument order; stack, memory, pc and
sub-return data start empty. -/
def CallFrame.new (msg_sender to_addr code_address : Nat) (bytecode : List Nat)
    (msg_value : Nat) (calldata : List Nat) (is_static : Bool)
    (gas_limit gas_used depth : Nat) (is_create : Bool) : CallFrame :=
  { msg_sender := msg_sender
    to_addr := to_addr
    code_address := code_address
    bytecode := bytecode
    calldata := calldata
    msg_value := msg_value
    stack := []
    memory := []
    pc := 0
    gas_limit := gas_limit
    gas_used := gas_used
    sub_return_data := []
    is_static := is_static
    depth := depth
    is_create := is_create }

/-- `Stack::pop`: underflow on empty stack. -/
def stackPop (s : List Nat) : Except VMError (Nat × List Nat) :=
  match s with
  | [] => .error .StackUnderflow
  | x :: rest => .ok (x, rest)

/-- `Stack::push`: overflow at depth 1024. -/
def stackPush (s : List Nat) (v : Nat) : Except VMError (List Nat) :=
  if 1024 ≤ s.length then .error .StackOverflow else .ok (v :: s)

/-- `CallFrame::increase_consumed_gas`: fails with
`OutOfGas(ConsumedGasOverflow)` when `gas_used + delta` exceeds `gas_limit`. -/
def CallFrame.increase_consumed_gas (f : CallFrame) (delta : Nat) :
    Except VMError CallFrame :=
  if f.gas_limit < f.gas_used + delta then .error (.OutOfGas .ConsumedGasOverflow)
  else .ok { f with gas_used := f.gas_used + delta }

/-- `word_to_address`: low 160 bits of a 256-bit word. -/
def word_to_address (w : Nat) : Nat := w % 2 ^ 160

/-- `U256 → usize` conversion: `VeryLargeNumber` beyond the platform width. -/
def toUsize (w : Nat) : Except VMError Nat :=
  if w < 2 ^ 64 then .ok w else .error .VeryLargeNumber

/-- Round a byte count up to a multiple of 32. -/
def roundUp32 (n : Nat) : Nat := ((n + 31) / 32) * 32

/-- Modelled from the spec: memory::calculate_memory_size (memory.rs is not
under src/) — rounds `offset + size` up to 32 bytes; size 0 means no
expansion. -/
def calculate_memory_size (offset size : Nat) : Nat :=
  if size = 0 then 0 else roundUp32 (offset + size)

/-- Zero-extend memory to at least `n` bytes. -/
def expandMem (mem : List Nat) (n : Nat) : List Nat :=
  if mem.length < n then mem ++ List.replicate (n - mem.length) 0 else mem

/-- Modelled from the spec: memory::load_range (memory.rs is not under
src/) — expands memory to the 32-byte-rounded end of the range and returns
the addressed slice together with the expanded memory; size 0 reads nothing
and expands nothing. -/
def load_range (mem : List Nat) (offset size : Nat) : List Nat × List Nat :=
  if size = 0 then ([], mem)
  else
    let m := expandMem mem (roundUp32 (offset + size))
    ((m.drop offset).take size, m)

/-- Modelled from the spec: memory::try_store_data (memory.rs is not under
src/) — expands memory to fit and overwrites the bytes at the offset. -/
def try_store_data (mem : List Nat) (offset : Nat) (data : List Nat) : List Nat :=
  if data.length = 0 then mem
  else
    let m := expandMem mem (roundUp32 (offset + data.length))
    m.take offset ++ data ++ m.drop (offset + data.length)

/-- The source's copy loop `for (i, byte) in source.iter().skip(offset)
.take(size) ... data[i] = byte` over a zero-initialised buffer of length
`size`: the in-range prefix of the source followed by zero fill. -/
def copyWithZeroFill (source : List Nat) (offset size : Nat) : List Nat :=
  let piece := (source.drop offset).take size
  piece ++ List.replicate (size - piece.length) 0

/-- Modelled from the spec: utils::get_account (utils.rs is not under src/) —
read an account through the cache, falling back to the external store, with
absent addresses reading as the empty account. -/
def get_account (store : Store) (cache : List (Nat × Account)) (addr : Nat) :
    Account :=
  match alookup cache addr with
  | some a => a
  | none => (store.getAccount addr).getD emptyAccount

/-- Modelled from the spec: utils::account_exists — the address is present in
the cache or in the external store. -/
def account_exists (store : Store) (cache : List (Nat × Account)) (addr : Nat) :
    Bool :=
  (alookup cache addr).isSome || (store.getAccount addr).isSome

/-- Modelled from the spec: utils::get_account_mut_vm followed by a mutation —
caches the account (reading it through from the store when absent) and
applies the update to the cached copy. -/
def withAccountMut (store : Store) (cache : List (Nat × Account)) (addr : Nat)
    (f : Account → Account) : List (Nat × Account) :=
  ainsert cache addr (f (get_account store cache addr))

/-- Modelled from the spec: utils::access_account — read the account and mark
the address warm in `touched_accounts`, reporting whether it was cold
(EIP-2929 first-touch discipline). -/
def access_account (store : Store) (st : VMState) (addr : Nat) :
    (Account × Bool) × VMState :=
  let wasCold := !(decide (addr ∈ st.substate.touched_accounts))
  let st' := { st with substate :=
    { st.substate with touched_accounts := sinsert st.substate.touched_accounts addr } }
  ((get_account store st.cache addr, wasCold), st')

/-- Modelled from the spec: utils::increase_account_balance — checked 256-bit
balance addition. -/
def increase_account_balance (store : Store) (st : VMState) (addr v : Nat) :
    Except VMError VMState :=
  let acc := get_account store st.cache addr
  if U256MOD ≤ acc.balance + v then .error .BalanceOverflow
  else .ok { st with cache := ainsert st.cache addr { acc with balance := acc.balance + v } }

/-- Modelled from the spec: utils::decrease_account_balance — checked balance
subtraction. -/
def decrease_account_balance (store : Store) (st : VMState) (addr v : Nat) :
    Except VMError VMState :=
  let acc := get_account store st.cache addr
  if acc.balance < v then .error .BalanceUnderflow
  else .ok { st with cache := ainsert st.cache addr { acc with balance := acc.balance - v } }

/-- Modelled from the spec: utils::increment_account_nonce — checked `u64`
nonce increment. -/
def increment_account_nonce (store : Store) (st : VMState) (addr : Nat) :
    Except VMError VMState :=
  let acc := get_account store st.cache addr
  if U64MAX ≤ acc.nonce then .error .Internal
  else .ok { st with cache := ainsert st.cache addr { acc with nonce := acc.nonce + 1 } }

/-- constants.rs `REVERT_FOR_CALL`: pushed on the parent stack when a subcall
fails or reverts. -/
def REVERT_FOR_CALL : Nat := 0

/-- constants.rs `SUCCESS_FOR_CALL`: pushed on the parent stack when a
subcall succeeds. -/
def SUCCESS_FOR_CALL : Nat := 1

/-- constants.rs `CREATE_DEPLOYMENT_FAIL`: pushed when CREATE fails. -/
def CREATE_DEPLOYMENT_FAIL : Nat := 0

/-- Modelled from the spec: gas_cost::SSTORE_STIPEND — the fixed 2300-gas
stipend SSTORE must see strictly more than (gas_cost.rs is not under src/). -/
def SSTORE_STIPEND : Nat := 2300

/-- Modelled from the spec: constants::INIT_CODE_MAX_SIZE — EIP-3860 limit
0xC000 on init code (constants.rs is not under src/). -/
def INIT_CODE_MAX_SIZE : Nat := 49152

/-- Modelled from the spec: gas_cost::SELFDESTRUCT_REFUND — 24000 gas
refunded for the first destruction of an address, pre-London. -/
def SELFDESTRUCT_REFUND : Nat := 24000

/-- Quadratic memory cost of a word count (standard EVM memory formula). -/
def memCost (words : Nat) : Nat := 3 * words + words * words / 512

/-- Modelled from the spec: the memory-expansion fee, charged on the new
high-water word count against the current one (gas_cost.rs is not under
src/). -/
def memory_expansion_cost (new_size current_size : Nat) : Nat :=
  if new_size ≤ current_size then 0
  else memCost (new_size / 32) - memCost (current_size / 32)

/-- Modelled from the spec: gas cost of the non-EXT `*COPY` opcodes — base 3
plus 3 per copied word plus the memory-expansion delta. -/
def copy_cost (new_size current_size size : Nat) : Nat :=
  3 + 3 * ((size + 31) / 32) + memory_expansion_cost new_size current_size

/-- Modelled from the spec: gas_cost::extcodecopy — EIP-2929 account access
cost (2600 cold / 100 warm from Berlin) plus the copy and expansion terms. -/
def extcodecopy_cost (size new_size current_size : Nat) (wasCold : Bool)
    (fork : Fork) : Nat :=
  (if Fork.berlin.rank ≤ fork.rank then (if wasCold then 2600 else 100)
   else if Fork.tangerine.rank ≤ fork.rank then 700 else 20)
    + 3 * ((size + 31) / 32) + memory_expansion_cost new_size current_size

/-- Modelled from the spec: gas_cost::sstore — EIP-2200/2929 write cost from
the `(original, current, new)` triple, plus the cold-slot surcharge from
Berlin (gas_cost.rs is not under src/). -/
def sstore_cost (slot : StorageSlot) (new_value : Nat) (wasCold : Bool)
    (fork : Fork) : Nat :=
  if Fork.berlin.rank ≤ fork.rank then
    (if wasCold then 2100 else 0) +
      (if new_value = slot.current_value then 100
       else if slot.current_value = slot.original_value then
         (if slot.original_value = 0 then 20000 else 2900)
       else 100)
  else if fork = Fork.constantinople ∨ Fork.istanbul.rank ≤ fork.rank then
    (if new_value = slot.current_value then
       (if fork = Fork.constantinople then 200 else 800)
     else if slot.current_value = slot.original_value then
       (if slot.original_value = 0 then 20000 else 5000)
     else (if fork = Fork.constantinople then 200 else 800))
  else
    (if slot.current_value = 0 ∧ new_value ≠ 0 then 20000 else 5000)

/-- Modelled from the spec: gas_cost::selfdestruct — 5000, plus 25000 when a
non-existent/empty beneficiary receives a balance (Tangerine on), plus the
EIP-2929 cold-account surcharge from Berlin. -/
def selfdestruct_cost (wasCold accountIsEmpty : Bool) (balance : Nat)
    (fork : Fork) : Nat :=
  5000
    + (if accountIsEmpty ∧ 0 < balance ∧ Fork.tangerine.rank ≤ fork.rank
       then 25000 else 0)
    + (if Fork.berlin.rank ≤ fork.rank ∧ wasCold = true then 2600 else 0)

/-- Modelled from the spec: gas_cost::max_message_call_gas — EIP-150, all but
one 64th of the frame's remaining gas. -/
def max_message_call_gas (f : CallFrame) : Except VMError Nat :=
  if f.gas_limit < f.gas_used then .error (.OutOfGas .ConsumedGasOverflow)
  else
    let gas_left := f.gas_limit - f.gas_used
    .ok (gas_left - gas_left / 64)

/-- vm.rs `RetData`: what the parent needs to consume the child's result. -/
structure RetData where
  is_create : Bool
  ret_offset : Nat
  ret_size : Nat
  should_transfer_value : Bool
  /-- The source field is named `to`, a reserved token in Lean. -/
  to_addr : Nat
  msg_sender : Nat
  value : Nat
  max_message_call_gas : Nat
deriving DecidableEq

/-- Result of `generic_call` / `generic_create`: the updated shared state,
the updated parent frame, the pushed child frame together with its `RetData`
and `StateBackup` when a frame was pushed, and the pc increment of the
returned `OpcodeResult::Continue`. -/
structure CallOutcome where
  state : VMState
  frame : CallFrame
  pushed : Option (CallFrame × RetData × StateBackup)
  pc_increment : Nat
deriving DecidableEq

/-- The block the source repeats in `generic_call`'s three early-exit
branches: subtract the reserved gas back from the parent's `gas_used`
(checked), push the given status word, and continue in the parent at
`pc + 1` with no frame pushed. -/
def refund_and_push (st : VMState) (frame : CallFrame) (gas_limit pushVal : Nat) :
    Except VMError CallOutcome :=
  if frame.gas_used < gas_limit then .error .Internal
  else
    match stackPush frame.stack pushVal with
    | .error e => .error e
    | .ok s =>
      .ok { state := st
            frame := { frame with gas_used := frame.gas_used - gas_limit, stack := s }
            pushed := none
            pc_increment := 1 }

/-- system.rs `VM::generic_call`: the shared CALL/CALLCODE/DELEGATECALL/
STATICCALL tail.  Reads the sender account, clears the parent's sub-return
data, loads the calldata from parent memory, then checks the balance, depth
and empty-delegation early exits; otherwise transfers the value, pushes the
`RetData`, the child frame and the `StateBackup` snapshot.  The trailing
synchronous precompile execution of the source is outside this fragment. -/
def generic_call (store : Store) (st0 : VMState) (frame0 : CallFrame)
    (gas_limit value msg_sender to_addr code_address : Nat)
    (should_transfer_value is_static : Bool)
    (args_offset args_size ret_offset ret_size : Nat)
    (bytecode : List Nat) (is_delegation : Bool) : Except VMError CallOutcome :=
  let accessed := access_account store st0 msg_sender
  let sender_account_info := accessed.1.1
  let st1 := accessed.2
  let frame1 := { frame0 with sub_return_data := [] }
  let loaded := load_range frame1.memory args_offset args_size
  let calldata := loaded.1
  let frame2 := { frame1 with memory := loaded.2 }
  if should_transfer_value = true ∧ sender_account_info.balance < value then
    refund_and_push st1 frame2 gas_limit REVERT_FOR_CALL
  else
    let new_depth := frame2.depth + 1
    if 1024 < new_depth then
      refund_and_push st1 frame2 gas_limit REVERT_FOR_CALL
    else if bytecode.isEmpty = true ∧ is_delegation = true then
      refund_and_push st1 frame2 gas_limit SUCCESS_FOR_CALL
    else
      let transferred : Except VMError VMState :=
        if should_transfer_value then
          match decrease_account_balance store st1 msg_sender value with
          | .error e => .error e
          | .ok a => increase_account_balance store a to_addr value
        else .ok st1
      match transferred with
      | .error e => .error e
      | .ok st2 =>
        let retdata : RetData :=
          { is_create := false
            ret_offset := ret_offset
            ret_size := ret_size
            should_transfer_value := should_transfer_value
            to_addr := to_addr
            msg_sender := msg_sender
            value := value
            max_message_call_gas := gas_limit }
        let child := CallFrame.new msg_sender to_addr code_address bytecode
          value calldata is_static gas_limit 0 new_depth false
        .ok { state := st2
              frame := frame2
              pushed := some (child, retdata, stateBackupOf st2)
              pc_increment := 0 }

/-- system.rs `VM::generic_create`: the shared CREATE/CREATE2 tail.  The two
keccak-based address derivations (utils::calculate_create_address and
calculate_create2_address) are taken as parameters.  Validations in source
order: static context, EIP-3860 init-code size, gas reservation; then the
balance/depth/nonce early exit that returns the reserved gas, the EIP-684
collision exit that keeps it consumed, and finally the state changes and
frame push. -/
def generic_create (store : Store) (fork : Fork)
    (create_address : Nat → Nat → Nat)
    (create2_address : Nat → List Nat → Nat → Nat)
    (st0 : VMState) (frame0 : CallFrame)
    (value_in_wei_to_send code_offset_in_memory code_size_in_memory : Nat)
    (salt : Option Nat) : Except VMError CallOutcome :=
  if frame0.is_static then .error .OpcodeNotAllowedInStaticContext
  else if INIT_CODE_MAX_SIZE < code_size_in_memory ∧ Fork.shanghai.rank ≤ fork.rank then
    .error (.OutOfGas .ConsumedGasOverflow)
  else
    match max_message_call_gas frame0 with
    | .error e => .error e
    | .ok mmcg =>
      match frame0.increase_consumed_gas mmcg with
      | .error e => .error e
      | .ok frame1 =>
        let frame2 := { frame1 with sub_return_data := [] }
        let deployer_address := frame2.to_addr
        let accessed := access_account store st0 deployer_address
        let deployer_account_info := accessed.1.1
        let st1 := accessed.2
        let loaded := load_range frame2.memory code_offset_in_memory code_size_in_memory
        let code := loaded.1
        let frame3 := { frame2 with memory := loaded.2 }
        let new_address :=
          match salt with
          | some s => create2_address deployer_address code s
          | none => create_address deployer_address deployer_account_info.nonce
        let st2 := { st1 with substate :=
          { st1.substate with touched_accounts := sinsert st1.substate.touched_accounts new_address } }
        let new_depth := frame3.depth + 1
        if deployer_account_info.balance < value_in_wei_to_send
            ∨ 1024 < new_depth
            ∨ deployer_account_info.nonce = U64MAX then
          refund_and_push st2 frame3 mmcg CREATE_DEPLOYMENT_FAIL
        else
          let new_account := get_account store st2.cache new_address
          if new_account.has_code_or_nonce then
            match increment_account_nonce store st2 deployer_address with
            | .error e => .error e
            | .ok st3 =>
              match stackPush frame3.stack CREATE_DEPLOYMENT_FAIL with
              | .error e => .error e
              | .ok s =>
                .ok { state := st3
                      frame := { frame3 with stack := s }
                      pushed := none
                      pc_increment := 1 }
          else
            if U256MOD ≤ value_in_wei_to_send + new_account.balance then .error .BalanceOverflow
            else
              let created_contract : Account :=
                { balance := value_in_wei_to_send + new_account.balance
                  nonce := if fork.rank < Fork.spuriousDragon.rank then 0 else 1
                  code := []
                  storage := [] }
              let st3 := { st2 with cache := ainsert st2.cache new_address created_contract }
              match increment_account_nonce store st3 deployer_address with
              | .error e => .error e
              | .ok st4 =>
                match decrease_account_balance store st4 deployer_address value_in_wei_to_send with
                | .error e => .error e
                | .ok st5 =>
                  let child := CallFrame.new deployer_address new_address new_address
                    code value_in_wei_to_send [] false mmcg 0 new_depth true
                  let st6 := { st5 with substate :=
                    { st5.substate with created_accounts := sinsert st5.substate.created_accounts new_address } }
                  let retdata : RetData :=
                    { is_create := true
                      ret_offset := 0
                      ret_size := 0
                      should_transfer_value := true
                      to_addr := new_address
                      msg_sender := deployer_address
                      value := value_in_wei_to_send
                      max_message_call_gas := mmcg }
                  .ok { state := st6
                        frame := frame3
                        pushed := some (child, retdata, stateBackupOf st6)
                        pc_increment := 0 }

/-- `BTreeSet::insert` through `HashMap::entry(..).or_default()` on the
touched-storage-slots map, reporting whether the key was newly inserted. -/
def slotInsertNew (m : List (Nat × List Nat)) (a k : Nat) :
    Bool × List (Nat × List Nat) :=
  match alookup m a with
  | some ks => if k ∈ ks then (false, m) else (true, ainsert m a (k :: ks))
  | none => (true, ainsert m a [k])

/-- vm.rs `VM::access_storage_slot`: mark the slot warm (Berlin on) and read
it — from the account's cached storage when present, otherwise freshly from
the store with `original_value = current_value = stored value` — then cache
the slot in the (possibly newly cached) account. -/
def access_storage_slot (store : Store) (fork : Fork) (st : VMState)
    (addr key : Nat) : (StorageSlot × Bool) × VMState :=
  let cold_slots :=
    if Fork.berlin.rank ≤ fork.rank then
      slotInsertNew st.substate.touched_storage_slots addr key
    else (false, st.substate.touched_storage_slots)
  let storage_slot : StorageSlot :=
    match alookup st.cache addr with
    | some account =>
      match alookup account.storage key with
      | some s => s
      | none =>
        { original_value := store.getStorageSlot addr key
          current_value := store.getStorageSlot addr key }
    | none =>
      { original_value := store.getStorageSlot addr key
        current_value := store.getStorageSlot addr key }
  let cache' := withAccountMut store st.cache addr
    (fun a => { a with storage := ainsert a.storage key storage_slot })
  ((storage_slot, cold_slots.1),
    { st with cache := cache'
              substate := { st.substate with touched_storage_slots := cold_slots.2 } })

/-- vm.rs `VM::update_account_storage`: write `new_value` into the slot's
`current_value`, keeping the cached `original_value` (`entry(..).or_insert`
with the existing original, defaulting to 0 for an uncached slot). -/
def update_account_storage (store : Store) (st : VMState)
    (addr key new_value : Nat) : VMState :=
  let cache' := withAccountMut store st.cache addr (fun account =>
    let slot' : StorageSlot :=
      match alookup account.storage key with
      | some slot => { slot with current_value := new_value }
      | none => { original_value := 0, current_value := new_value }
    { account with storage := ainsert account.storage key slot' })
  { st with cache := cache' }

/-- The `(remove_slot, restore_empty_slot, restore_slot)` refund triple
selected by fork in `op_sstore` (stack_memory_storage_flow.rs 193-201). -/
def sstore_refund_triple (fork : Fork) : Nat × Nat × Nat :=
  if fork = Fork.constantinople then (15000, 19800, 4800)
  else if Fork.istanbul.rank ≤ fork.rank ∧ fork.rank < Fork.berlin.rank then
    (15000, 19200, 4200)
  else (4800, 19900, 2800)

/-- The gas-refund update of `op_sstore` (stack_memory_storage_flow.rs
203-245): the pre-Istanbul non-Constantinople special case, then the
EIP-1283/2200/3529 case analysis over `(original, current, new)`, with the
source's checked additions and subtractions (and the source's choice of
error variant at each site). -/
def sstore_refund_update (fork : Fork) (slot : StorageSlot) (new_value : Nat)
    (refunds : Nat) : Except VMError Nat :=
  let t := sstore_refund_triple fork
  let remove_slot_cost := t.1
  let restore_empty_slot_cost := t.2.1
  let restore_slot_cost := t.2.2
  if fork.rank < Fork.istanbul.rank ∧ fork ≠ Fork.constantinople then
    if slot.current_value ≠ 0 ∧ new_value = 0 then
      if U64MAX < refunds + 15000 then .error .GasRefundsOverflow
      else .ok (refunds + 15000)
    else .ok refunds
  else if (fork = Fork.constantinople ∨ Fork.istanbul.rank ≤ fork.rank)
      ∧ new_value ≠ slot.current_value then
    if slot.current_value = slot.original_value then
      if slot.original_value ≠ 0 ∧ new_value = 0 then
        if U64MAX < refunds + remove_slot_cost then .error .GasRefundsOverflow
        else .ok (refunds + remove_slot_cost)
      else .ok refunds
    else
      let step1 : Except VMError Nat :=
        if slot.original_value ≠ 0 then
          if slot.current_value = 0 then
            if refunds < remove_slot_cost then .error .GasRefundsUnderflow
            else .ok (refunds - remove_slot_cost)
          else if new_value = 0 then
            if U64MAX < refunds + remove_slot_cost then .error .GasRefundsUnderflow
            else .ok (refunds + remove_slot_cost)
          else .ok refunds
        else .ok refunds
      match step1 with
      | .error e => .error e
      | .ok r1 =>
        if new_value = slot.original_value then
          if slot.original_value = 0 then
            if U64MAX < r1 + restore_empty_slot_cost then .error .GasRefundsUnderflow
            else .ok (r1 + restore_empty_slot_cost)
          else
            if U64MAX < r1 + restore_slot_cost then .error .GasRefundsUnderflow
            else .ok (r1 + restore_slot_cost)
        else .ok r1
  else .ok refunds

/-- stack_memory_storage_flow.rs `VM::op_sstore`: static check, pop key and
value, EIP-2200 stipend check (`gas_left > 2300` or
`OutOfGas(MaxGasLimitExceeded)`), warm/cold slot access, refund update, gas
charge, storage write. -/
def op_sstore (store : Store) (fork : Fork) (st0 : VMState) (frame0 : CallFrame) :
    Except VMError (VMState × CallFrame) :=
  if frame0.is_static then .error .OpcodeNotAllowedInStaticContext
  else
    match stackPop frame0.stack with
    | .error e => .error e
    | .ok (storage_slot_key, s1) =>
      match stackPop s1 with
      | .error e => .error e
      | .ok (new_storage_slot_value, s2) =>
        let frame1 := { frame0 with stack := s2 }
        let target := frame1.to_addr
        if frame1.gas_limit < frame1.gas_used then
          .error (.OutOfGas .ConsumedGasOverflow)
        else
          let gas_left := frame1.gas_limit - frame1.gas_used
          if gas_left ≤ SSTORE_STIPEND then
            .error (.OutOfGas .MaxGasLimitExceeded)
          else
            let accessed := access_storage_slot store fork st0 target storage_slot_key
            let storage_slot := accessed.1.1
            let storage_slot_was_cold := accessed.1.2
            let st1 := accessed.2
            match sstore_refund_update fork storage_slot new_storage_slot_value
                st1.refunded_gas with
            | .error e => .error e
            | .ok refunds =>
              let st2 := { st1 with refunded_gas := refunds }
              match frame1.increase_consumed_gas
                  (sstore_cost storage_slot new_storage_slot_value
                    storage_slot_was_cold fork) with
              | .error e => .error e
              | .ok frame2 =>
                .ok (update_account_storage store st2 target storage_slot_key
                      new_storage_slot_value, frame2)

/-- Two consecutive SSTOREs in the same frame: the second runs on the state
and frame left by the first. -/
def op_sstore_twice (store : Store) (fork : Fork) (st0 : VMState)
    (frame0 : CallFrame) : Except VMError (VMState × CallFrame) :=
  match op_sstore store fork st0 frame0 with
  | .error e => .error e
  | .ok p => op_sstore store fork p.1 p.2

/-- system.rs `VM::op_selfdestruct`: static check, pop the target address,
access target and self, charge gas, then — from Cancun — transfer the whole
balance and only schedule destruction (and burn when target = self) when the
account was created in this transaction; pre-Cancun always zero the balance,
refund 24000 before London on first destruction, and schedule destruction.
Finally mark an existing-but-empty target as touched. -/
def op_selfdestruct (store : Store) (fork : Fork) (st0 : VMState)
    (frame0 : CallFrame) : Except VMError (VMState × CallFrame) :=
  if frame0.is_static then .error .OpcodeNotAllowedInStaticContext
  else
    match stackPop frame0.stack with
    | .error e => .error e
    | .ok (w, s1) =>
      let target_address := word_to_address w
      let frame1 := { frame0 with stack := s1 }
      let self_addr := frame1.to_addr
      let acc1 := access_account store st0 target_address
      let target_account_info := acc1.1.1
      let target_account_is_cold := acc1.1.2
      let st1 := acc1.2
      let acc2 := access_account store st1 self_addr
      let current_account_info := acc2.1.1
      let st2 := acc2.2
      let balance_to_transfer := current_account_info.balance
      let account_is_empty :=
        if Fork.spuriousDragon.rank ≤ fork.rank then target_account_info.is_empty
        else !(account_exists store st2.cache target_address)
      match frame1.increase_consumed_gas
          (selfdestruct_cost target_account_is_cold account_is_empty
            balance_to_transfer fork) with
      | .error e => .error e
      | .ok frame2 =>
        let destructed : Except VMError VMState :=
          if Fork.cancun.rank ≤ fork.rank then
            match increase_account_balance store st2 target_address balance_to_transfer with
            | .error e => .error e
            | .ok st3 =>
              match decrease_account_balance store st3 self_addr balance_to_transfer with
              | .error e => .error e
              | .ok st4 =>
                if self_addr ∈ st4.substate.created_accounts then
                  let burnt := withAccountMut store st4.cache self_addr (fun a => { a with balance := 0 })
                  let st5 := { st4 with cache := burnt }
                  let sds := sinsert st5.substate.selfdestruct_set self_addr
                  .ok { st5 with substate := { st5.substate with selfdestruct_set := sds } }
                else .ok st4
          else
            match increase_account_balance store st2 target_address balance_to_transfer with
            | .error e => .error e
            | .ok st3 =>
              let zeroed := withAccountMut store st3.cache self_addr (fun a => { a with balance := 0 })
              let st4 := { st3 with cache := zeroed }
              let refunded : Except VMError Nat :=
                if fork.rank < Fork.london.rank
                    ∧ self_addr ∉ st4.substate.selfdestruct_set then
                  if U64MAX < st4.refunded_gas + SELFDESTRUCT_REFUND then
                    .error .GasRefundsOverflow
                  else .ok (st4.refunded_gas + SELFDESTRUCT_REFUND)
                else .ok st4.refunded_gas
              match refunded with
              | .error e => .error e
              | .ok r =>
                .ok { st4 with
                  refunded_gas := r
                  substate := { st4.substate with
                    selfdestruct_set := sinsert st4.substate.selfdestruct_set self_addr } }
        match destructed with
        | .error e => .error e
        | .ok st6 =>
          let st7 :=
            if account_exists store st6.cache target_address = true
                ∧ target_account_info.is_empty = true then
              { st6 with substate :=
                { st6.substate with touched_accounts := sinsert st6.substate.touched_accounts target_address } }
            else st6
          .ok (st7, frame2)

/-- environment.rs `VM::op_calldatacopy`: pop destination, source offset and
size, charge the copy gas, and store `size` bytes into memory — all zeros
when the source offset lies past the calldata, otherwise the in-range
calldata bytes with trailing zero fill. -/
def op_calldatacopy (frame0 : CallFrame) : Except VMError CallFrame :=
  match stackPop frame0.stack with
  | .error e => .error e
  | .ok (dest_offset, s1) =>
    match stackPop s1 with
    | .error e => .error e
    | .ok (calldata_offset, s2) =>
      match stackPop s2 with
      | .error e => .error e
      | .ok (size_word, s3) =>
        match toUsize size_word with
        | .error e => .error e
        | .ok size =>
          let frame1 := { frame0 with stack := s3 }
          let new_memory_size := calculate_memory_size dest_offset size
          match frame1.increase_consumed_gas
              (copy_cost new_memory_size frame1.memory.length size) with
          | .error e => .error e
          | .ok frame2 =>
            if size = 0 then .ok frame2
            else if frame2.calldata.length < calldata_offset then
              let mem' := try_store_data frame2.memory dest_offset (List.replicate size 0)
              .ok { frame2 with memory := mem' }
            else
              let mem' := try_store_data frame2.memory dest_offset (copyWithZeroFill frame2.calldata calldata_offset size)
              .ok { frame2 with memory := mem' }

/-- environment.rs `VM::op_codecopy`: like CALLDATACOPY over the frame's
bytecode; the buffer stays all zeros unless the source offset is in range. -/
def op_codecopy (frame0 : CallFrame) : Except VMError CallFrame :=
  match stackPop frame0.stack with
  | .error e => .error e
  | .ok (destination_offset, s1) =>
    match stackPop s1 with
    | .error e => .error e
    | .ok (code_offset, s2) =>
      match stackPop s2 with
      | .error e => .error e
      | .ok (size_word, s3) =>
        match toUsize size_word with
        | .error e => .error e
        | .ok size =>
          let frame1 := { frame0 with stack := s3 }
          let new_memory_size := calculate_memory_size destination_offset size
          match frame1.increase_consumed_gas
              (copy_cost new_memory_size frame1.memory.length size) with
          | .error e => .error e
          | .ok frame2 =>
            if size = 0 then .ok frame2
            else
              let data :=
                if code_offset < frame2.bytecode.length then
                  copyWithZeroFill frame2.bytecode code_offset size
                else List.replicate size 0
              let mem' := try_store_data frame2.memory destination_offset data
              .ok { frame2 with memory := mem' }

/-- environment.rs `VM::op_extcodecopy`: access the external account
(EIP-2929), charge gas, and copy its code with trailing zero fill; the
buffer stays all zeros unless the source offset is in range. -/
def op_extcodecopy (store : Store) (fork : Fork) (st0 : VMState)
    (frame0 : CallFrame) : Except VMError (VMState × CallFrame) :=
  match stackPop frame0.stack with
  | .error e => .error e
  | .ok (addr_word, s1) =>
    match stackPop s1 with
    | .error e => .error e
    | .ok (dest_offset, s2) =>
      match stackPop s2 with
      | .error e => .error e
      | .ok (src_offset, s3) =>
        match stackPop s3 with
        | .error e => .error e
        | .ok (size_word, s4) =>
          match toUsize size_word with
          | .error e => .error e
          | .ok size =>
            let address := word_to_address addr_word
            let frame1 := { frame0 with stack := s4 }
            let current_memory_size := frame1.memory.length
            let acc := access_account store st0 address
            let account_info := acc.1.1
            let address_was_cold := acc.1.2
            let st1 := acc.2
            let new_memory_size := calculate_memory_size dest_offset size
            match frame1.increase_consumed_gas
                (extcodecopy_cost size new_memory_size current_memory_size
                  address_was_cold fork) with
            | .error e => .error e
            | .ok frame2 =>
              if size = 0 then .ok (st1, frame2)
              else
                let data :=
                  if src_offset < account_info.code.length then
                    copyWithZeroFill account_info.code src_offset size
                  else List.replicate size 0
                let mem' := try_store_data frame2.memory dest_offset data
                .ok (st1, { frame2 with memory := mem' })

/-- environment.rs `VM::op_returndatacopy`: Byzantium gate, pops, gas; the
size-0 early success applies only when the return-data offset is also 0;
otherwise `copy_limit = returndata_offset.checked_add(size)` fails with
`VeryLargeNumber` on `usize` overflow, and `copy_limit ≤
len(sub_return_data)` is enforced with `OutOfBounds` on violation. -/
def op_returndatacopy (fork : Fork) (frame0 : CallFrame) :
    Except VMError CallFrame :=
  if fork.rank < Fork.byzantium.rank then .error .InvalidOpcode
  else
    match stackPop frame0.stack with
    | .error e => .error e
    | .ok (dest_offset, s1) =>
      match stackPop s1 with
      | .error e => .error e
      | .ok (rdoff_word, s2) =>
        match toUsize rdoff_word with
        | .error e => .error e
        | .ok returndata_offset =>
          match stackPop s2 with
          | .error e => .error e
          | .ok (size_word, s3) =>
            match toUsize size_word with
            | .error e => .error e
            | .ok size =>
              let frame1 := { frame0 with stack := s3 }
              let new_memory_size := calculate_memory_size dest_offset size
              match frame1.increase_consumed_gas
                  (copy_cost new_memory_size frame1.memory.length size) with
              | .error e => .error e
              | .ok frame2 =>
                if size = 0 ∧ returndata_offset = 0 then .ok frame2
                else
                  let sub_return_data_len := frame2.sub_return_data.length
                  if 2 ^ 64 ≤ returndata_offset + size then .error .VeryLargeNumber
                  else
                    let copy_limit := returndata_offset + size
                    if sub_return_data_len < copy_limit then .error .OutOfBounds
                    else
                      let mem' := try_store_data frame2.memory dest_offset (copyWithZeroFill frame2.sub_return_data returndata_offset size)
                      .ok { frame2 with memory := mem' }

/-- A storage-cache operation of one transaction: an `SLOAD`/`SSTORE`-driven
`access_storage_slot`, or an `SSTORE`-driven `update_account_storage`. -/
inductive StorageOp where
  | access (addr key : Nat)
  | update (addr key value : Nat)

/-- Apply one storage-cache operation to the state. -/
def storage_step (store : Store) (fork : Fork) (st : VMState) :
    StorageOp → VMState
  | .access a k => (access_storage_slot store fork st a k).2
  | .update a k v => update_account_storage store st a k v

/-- Run a sequence of storage-cache operations. -/
def storage_run (store : Store) (fork : Fork) :
    List StorageOp → VMState → VMState
  | [], st => st
  | op :: rest, st => storage_run store fork rest (storage_step store fork st op)

/-- The slot cached for `(addr, key)`, when the account and the slot are in
the cache. -/
def cachedSlot (st : VMState) (addr key : Nat) : Option StorageSlot :=
  match alookup st.cache addr with
  | some account => alookup account.storage key
  | none => none

/-- A world-state store with no accounts and all storage zero, used to
evaluate the theorems on concrete inputs. -/
def wStore : Store := ⟨fun _ => none, fun _ _ => 0⟩

/-- The empty substate. -/
def wSub : Substate := ⟨[], [], [], []⟩

/-- An interpreter state with empty cache and substate. -/
def wState : VMState := ⟨[], wSub, 0, ([] : TransientStorage)⟩

/-- A non-static parent frame at depth 0 with plenty of gas. -/
def wFrame : CallFrame := CallFrame.new 1 2 2 [0] 0 [] false 100000 0 0 false

/-- The state right after `generic_call wStore wState wFrame 1000 0 1 2 2
false false 0 0 0 0 [0] false` pushes its frame: the sender is marked warm,
nothing else changes. -/
def wEntry : VMState := ⟨[], ⟨[], [1], [], []⟩, 0, ([] : TransientStorage)⟩

/-- The backup that `generic_call` pushes in the concrete run above. -/
def wBackup : StateBackup := stateBackupOf wEntry

/-- The child frame pushed in the concrete run above. -/
def wChild : CallFrame := CallFrame.new 1 2 2 [0] 0 [] false 1000 0 1 false

/-- The `RetData` pushed in the concrete run above. -/
def wRd : RetData :=
  { is_create := false
    ret_offset := 0
    ret_size := 0
    should_transfer_value := false
    to_addr := 2
    msg_sender := 1
    value := 0
    max_message_call_gas := 1000 }

/-- A store whose only account sits at address 77 with nonce 1 and no code:
a CREATE collision target. -/
def wStoreColl : Store :=
  ⟨fun a => if a = 77 then some { balance := 0, nonce := 1, code := [], storage := [] } else none,
   fun _ _ => 0⟩

/-- A frame about to run SSTORE with exactly the stipend remaining. -/
def wFrameSst : CallFrame := { wFrame with stack := [1, 2], gas_limit := 2300 }

/-- A frame whose stack drives two SSTOREs on slot 5: first write 1, then
write 0. -/
def wFrameDouble : CallFrame := { wFrame with stack := [5, 1, 5, 0] }

/-- A state whose cache holds account 3 with slot 4 cached as (7, 8). -/
def wSlotState : VMState :=
  { wState with cache := [(3, { balance := 0, nonce := 0, code := [], storage := [(4, ⟨7, 8⟩)] })] }

/-- A frame about to run RETURNDATACOPY with size 0 but return-data offset 5,
while `sub_return_data` is empty. -/
def wFrameRdc : CallFrame := { wFrame with stack := [0, 5, 0] }

/-- A frame about to run RETURNDATACOPY with size 1 at offset 0 while
`sub_return_data` is empty: the requested range extends past the source. -/
def wFrameRdcTrunc : CallFrame := { wFrame with stack := [0, 0, 1] }

/-- A frame about to run CALLDATACOPY of 4 bytes from offset 10 of a 2-byte
calldata. -/
def wFrameCdc : CallFrame := { wFrame with stack := [0, 10, 4], calldata := [1, 2] }

/-- A frame about to run RETURNDATACOPY whose return-data offset and size add
up past `usize::MAX`. -/
def wFrameRdcOver : CallFrame := { wFrame with stack := [0, 2 ^ 64 - 1, 1] }

/-- A frame about to run SELFDESTRUCT towards address 9. -/
def wFrameSelf : CallFrame := { wFrame with stack := [9] }

/-- The full outcome of the concrete run above. -/
def wOutcome : CallOutcome :=
  { state := wEntry
    frame := wFrame
    pushed := some (wChild, wRd, wBackup)
    pc_increment := 0 }

/-! ## Theorems -/

theorem refund_and_push_ok {st : VMState} {frame : CallFrame}
    {gas_limit pushVal : Nat} {o : CallOutcome}
    (h : refund_and_push st frame gas_limit pushVal = .ok o) :
    o.pushed = none ∧ o.state = st ∧ o.pc_increment = 1 ∧
    o.frame.gas_used = frame.gas_used - gas_limit ∧
    o.frame.stack = pushVal :: frame.stack := by
  unfold refund_and_push at h
  split at h
  · exact absurd h (by simp)
  · rcases hp : stackPush frame.stack pushVal with e | s
    · rw [hp] at h
      exact absurd h (by simp)
    · rw [hp] at h
      injection h with h
      subst h
      unfold stackPush at hp
      split at hp
      · exact absurd hp (by simp)
      · injection hp with hp
        subst hp
        exact ⟨rfl, rfl, rfl, rfl, rfl⟩

theorem alookup_ainsert_self {α β : Type} [DecidableEq α]
    (l : List (α × β)) (a : α) (b : β) : alookup (ainsert l a b) a = some b := by
  induction l with
  | nil => simp [ainsert, alookup]
  | cons hd tl ih =>
    obtain ⟨k, v⟩ := hd
    by_cases hk : k = a
    · simp [ainsert, alookup, hk]
    · simp [ainsert, alookup, hk, ih]

theorem alookup_ainsert_ne {α β : Type} [DecidableEq α]
    (l : List (α × β)) (a c : α) (b : β) (h : a ≠ c) :
    alookup (ainsert l a b) c = alookup l c := by
  induction l with
  | nil => simp [ainsert, alookup, h]
  | cons hd tl ih =>
    obtain ⟨k, v⟩ := hd
    by_cases hk : k = a
    · subst hk
      simp [ainsert, alookup, h]
    · simp [ainsert, alookup, hk, ih]

theorem ainsert_ainsert {α β : Type} [DecidableEq α]
    (l : List (α × β)) (a : α) (b c : β) :
    ainsert (ainsert l a b) a c = ainsert l a c := by
  induction l with
  | nil => simp [ainsert]
  | cons hd tl ih =>
    obtain ⟨k, v⟩ := hd
    by_cases hk : k = a
    · simp [ainsert, hk]
    · simp [ainsert, hk, ih]

/-- C1: for every frame that ends in revert or exceptional halt, the VM
restores cache, substate, refund counter and transient storage to their
frame-entry values: `restore_state` applied to the `StateBackup` pushed by
`generic_call` or `generic_create` at frame entry reproduces, on every later
state, exactly the four frame-entry snapshot components. -/
theorem restore_state_restores_frame_entry :
    (∀ (store : Store) (st0 : VMState) (frame0 : CallFrame)
       (gas_limit value msg_sender to_addr code_address : Nat)
       (stv iss : Bool) (ao asz ro rs : Nat) (bytecode : List Nat) (dl : Bool)
       (o : CallOutcome) (child : CallFrame) (rd : RetData) (b : StateBackup)
       (later : VMState),
       generic_call store st0 frame0 gas_limit value msg_sender to_addr
         code_address stv iss ao asz ro rs bytecode dl = .ok o →
       o.pushed = some (child, rd, b) →
       (restore_state later b).cache = o.state.cache ∧
       (restore_state later b).substate = o.state.substate ∧
       (restore_state later b).refunded_gas = o.state.refunded_gas ∧
       (restore_state later b).transient_storage = o.state.transient_storage) ∧
    (∀ (store : Store) (fork : Fork)
       (create_address : Nat → Nat → Nat)
       (create2_address : Nat → List Nat → Nat → Nat)
       (st0 : VMState) (frame0 : CallFrame) (value co cs : Nat)
       (salt : Option Nat)
       (o : CallOutcome) (child : CallFrame) (rd : RetData) (b : StateBackup)
       (later : VMState),
       generic_create store fork create_address create2_address st0 frame0
         value co cs salt = .ok o →
       o.pushed = some (child, rd, b) →
       (restore_state later b).cache = o.state.cache ∧
       (restore_state later b).substate = o.state.substate ∧
       (restore_state later b).refunded_gas = o.state.refunded_gas ∧
       (restore_state later b).transient_storage = o.state.transient_storage) := by
  constructor
  · intro store st0 frame0 gas_limit value msg_sender to_addr code_address
      stv iss ao asz ro rs bytecode dl o child rd b later h1 h2
    unfold generic_call at h1
    dsimp only at h1
    split at h1
    · have := (refund_and_push_ok h1).1
      rw [h2] at this
      exact absurd this (by simp)
    · split at h1
      · have := (refund_and_push_ok h1).1
        rw [h2] at this
        exact absurd this (by simp)
      · split at h1
        · have := (refund_and_push_ok h1).1
          rw [h2] at this
          exact absurd this (by simp)
        · split at h1
          · exact absurd h1 (by simp)
          · injection h1 with h1
            subst h1
            simp only [Option.some.injEq, Prod.mk.injEq] at h2
            obtain ⟨-, -, hb⟩ := h2
            subst hb
            exact ⟨rfl, rfl, rfl, rfl⟩
  · intro store fork create_address create2_address st0 frame0 value co cs salt
      o child rd b later h1 h2
    unfold generic_create at h1
    split at h1
    · exact absurd h1 (by simp)
    · split at h1
      · exact absurd h1 (by simp)
      · split at h1
        · exact absurd h1 (by simp)
        · split at h1
          · exact absurd h1 (by simp)
          · dsimp only at h1
            split at h1
            · have := (refund_and_push_ok h1).1
              rw [h2] at this
              exact absurd this (by simp)
            · split at h1
              · split at h1
                · exact absurd h1 (by simp)
                · split at h1
                  · exact absurd h1 (by simp)
                  · injection h1 with h1
                    subst h1
                    simp at h2
              · split at h1
                · exact absurd h1 (by simp)
                · split at h1
                  · exact absurd h1 (by simp)
                  · split at h1
                    · exact absurd h1 (by simp)
                    · injection h1 with h1
                      subst h1
                      simp only [Option.some.injEq, Prod.mk.injEq] at h2
                      obtain ⟨-, -, hb⟩ := h2
                      subst hb
                      exact ⟨rfl, rfl, rfl, rfl⟩

/-- C2: a CALL-family invocation through `generic_call` in which value
should be transferred but the sender's balance is below the value, or in
which the new depth would exceed 1024, transfers nothing (the cache is
untouched), pushes no child frame, subtracts the reserved `gas_limit` back
from the parent's `gas_used`, pushes `REVERT_FOR_CALL` (0) on the parent's
stack, and continues in the parent with pc advanced by 1. -/
theorem generic_call_fail_refunds_and_pushes_zero
    (store : Store) (st0 : VMState) (frame0 : CallFrame)
    (gas_limit value msg_sender to_addr code_address : Nat)
    (stv iss : Bool) (ao asz ro rs : Nat) (bytecode : List Nat) (dl : Bool)
    (hTrig : (stv = true ∧ (get_account store st0.cache msg_sender).balance < value)
             ∨ 1024 < frame0.depth + 1)
    (hGas : gas_limit ≤ frame0.gas_used)
    (hStack : frame0.stack.length < 1024) :
    generic_call store st0 frame0 gas_limit value msg_sender to_addr
      code_address stv iss ao asz ro rs bytecode dl =
    .ok
      { state := { st0 with substate := { st0.substate with touched_accounts := sinsert st0.substate.touched_accounts msg_sender } }
        frame := { frame0 with sub_return_data := [], memory := (load_range frame0.memory ao asz).2, gas_used := frame0.gas_used - gas_limit, stack := REVERT_FOR_CALL :: frame0.stack }
        pushed := none
        pc_increment := 1 } := by
  unfold generic_call
  simp only [access_account]
  have hpush : stackPush frame0.stack REVERT_FOR_CALL = .ok (REVERT_FOR_CALL :: frame0.stack) := by
    unfold stackPush
    rw [if_neg (by omega)]
  rcases hTrig with hbal | hd
  · rw [if_pos hbal]
    unfold refund_and_push
    rw [if_neg (by simp; omega)]
    simp only [hpush]
  · by_cases hbal : stv = true ∧ (get_account store st0.cache msg_sender).balance < value
    · rw [if_pos hbal]
      unfold refund_and_push
      rw [if_neg (by simp; omega)]
      simp only [hpush]
    · rw [if_neg hbal]
      rw [if_pos (by simpa using hd)]
      unfold refund_and_push
      rw [if_neg (by simp; omega)]
      simp only [hpush]

theorem generic_call_fail_refunds_and_pushes_zero_witness :
    generic_call wStore wState wFrame 0 5 1 2 2 true false 0 0 0 0 [0] false =
    .ok
      { state := { wState with substate := { wState.substate with touched_accounts := sinsert wState.substate.touched_accounts 1 } }
        frame := { wFrame with sub_return_data := [], memory := (load_range wFrame.memory 0 0).2, gas_used := wFrame.gas_used - 0, stack := REVERT_FOR_CALL :: wFrame.stack }
        pushed := none
        pc_increment := 1 } :=
  generic_call_fail_refunds_and_pushes_zero wStore wState wFrame 0 5 1 2 2
    true false 0 0 0 0 [0] false (Or.inl ⟨rfl, by decide⟩) (by decide) (by decide)

/-- C3: a CREATE/CREATE2 execution whose deployer balance is below the sent
value, whose new depth would exceed 1024, or whose deployer nonce is
`u64::MAX`, pushes `CREATE_DEPLOYMENT_FAIL` (0), returns the reserved
`max_message_call_gas` so the parent's `gas_used` is unchanged, leaves the
cache untouched (no nonce bump, no account created), pushes no frame, and
continues in the parent at pc + 1. -/
theorem generic_create_early_fail_keeps_nonce_and_refunds
    (store : Store) (fork : Fork)
    (create_address : Nat → Nat → Nat)
    (create2_address : Nat → List Nat → Nat → Nat)
    (st0 : VMState) (frame0 : CallFrame) (value co cs : Nat) (salt : Option Nat)
    (new_address : Nat)
    (hAddr : new_address = (match salt with
      | some s => create2_address frame0.to_addr (load_range frame0.memory co cs).1 s
      | none => create_address frame0.to_addr (get_account store st0.cache frame0.to_addr).nonce))
    (hstatic : frame0.is_static = false)
    (hsize : ¬(INIT_CODE_MAX_SIZE < cs ∧ Fork.shanghai.rank ≤ fork.rank))
    (hGU : frame0.gas_used ≤ frame0.gas_limit)
    (hTrig : (get_account store st0.cache frame0.to_addr).balance < value
             ∨ 1024 < frame0.depth + 1
             ∨ (get_account store st0.cache frame0.to_addr).nonce = U64MAX)
    (hStack : frame0.stack.length < 1024) :
    generic_create store fork create_address create2_address st0 frame0
      value co cs salt =
    .ok
      { state := { st0 with substate := { st0.substate with touched_accounts := sinsert (sinsert st0.substate.touched_accounts frame0.to_addr) new_address } }
        frame := { frame0 with sub_return_data := [], memory := (load_range frame0.memory co cs).2, gas_used := frame0.gas_used, stack := CREATE_DEPLOYMENT_FAIL :: frame0.stack }
        pushed := none
        pc_increment := 1 } := by
  have hm : max_message_call_gas frame0 =
      .ok ((frame0.gas_limit - frame0.gas_used)
        - (frame0.gas_limit - frame0.gas_used) / 64) := by
    unfold max_message_call_gas
    rw [if_neg (by omega)]
  have hic : frame0.increase_consumed_gas
      ((frame0.gas_limit - frame0.gas_used)
        - (frame0.gas_limit - frame0.gas_used) / 64) =
      .ok { frame0 with gas_used := frame0.gas_used
        + ((frame0.gas_limit - frame0.gas_used)
          - (frame0.gas_limit - frame0.gas_used) / 64) } := by
    unfold CallFrame.increase_consumed_gas
    rw [if_neg (by omega)]
  have hpush : stackPush frame0.stack CREATE_DEPLOYMENT_FAIL =
      .ok (CREATE_DEPLOYMENT_FAIL :: frame0.stack) := by
    unfold stackPush
    rw [if_neg (by omega)]
  unfold generic_create
  rw [if_neg (by simp [hstatic]), if_neg hsize, hm]
  dsimp only
  rw [hic]
  simp only [access_account]
  rw [if_pos hTrig]
  unfold refund_and_push
  rw [if_neg (by simp)]
  simp only [hpush, hAddr]
  simp only [Nat.add_sub_cancel]

theorem generic_create_early_fail_keeps_nonce_and_refunds_witness :
    generic_create wStore Fork.cancun (fun _ _ => 77) (fun _ _ _ => 88)
      wState wFrame 5 0 0 none =
    .ok
      { state := { wState with substate := { wState.substate with touched_accounts := sinsert (sinsert wState.substate.touched_accounts wFrame.to_addr) 77 } }
        frame := { wFrame with sub_return_data := [], memory := (load_range wFrame.memory 0 0).2, gas_used := wFrame.gas_used, stack := CREATE_DEPLOYMENT_FAIL :: wFrame.stack }
        pushed := none
        pc_increment := 1 } :=
  generic_create_early_fail_keeps_nonce_and_refunds wStore Fork.cancun
    (fun _ _ => 77) (fun _ _ _ => 88) wState wFrame 5 0 0 none 77 (by decide)
    (by decide) (by decide) (by decide) (Or.inl (by decide)) (by decide)

/-- C4: a CREATE/CREATE2 execution that passes the balance/depth/nonce
checks but whose computed target address already has code or nonce pushes 0,
increments the deployer's nonce in the cache, and keeps the full reserved
`max_message_call_gas` consumed in the parent frame; no frame is pushed. -/
theorem generic_create_collision_bumps_nonce_keeps_gas
    (store : Store) (fork : Fork)
    (create_address : Nat → Nat → Nat)
    (create2_address : Nat → List Nat → Nat → Nat)
    (st0 : VMState) (frame0 : CallFrame) (value co cs : Nat) (salt : Option Nat)
    (new_address : Nat)
    (hAddr : new_address = (match salt with
      | some s => create2_address frame0.to_addr (load_range frame0.memory co cs).1 s
      | none => create_address frame0.to_addr (get_account store st0.cache frame0.to_addr).nonce))
    (hstatic : frame0.is_static = false)
    (hsize : ¬(INIT_CODE_MAX_SIZE < cs ∧ Fork.shanghai.rank ≤ fork.rank))
    (hGU : frame0.gas_used ≤ frame0.gas_limit)
    (hNoTrig : ¬((get_account store st0.cache frame0.to_addr).balance < value
             ∨ 1024 < frame0.depth + 1
             ∨ (get_account store st0.cache frame0.to_addr).nonce = U64MAX))
    (hColl : (get_account store st0.cache new_address).has_code_or_nonce = true)
    (hNonceBound : (get_account store st0.cache frame0.to_addr).nonce < U64MAX)
    (hStack : frame0.stack.length < 1024) :
    generic_create store fork create_address create2_address st0 frame0
      value co cs salt =
    .ok
      { state := { st0 with cache := ainsert st0.cache frame0.to_addr { get_account store st0.cache frame0.to_addr with nonce := (get_account store st0.cache frame0.to_addr).nonce + 1 }, substate := { st0.substate with touched_accounts := sinsert (sinsert st0.substate.touched_accounts frame0.to_addr) new_address } }
        frame := { frame0 with sub_return_data := [], memory := (load_range frame0.memory co cs).2, gas_used := frame0.gas_used + ((frame0.gas_limit - frame0.gas_used) - (frame0.gas_limit - frame0.gas_used) / 64), stack := CREATE_DEPLOYMENT_FAIL :: frame0.stack }
        pushed := none
        pc_increment := 1 } := by
  subst hAddr
  have hm : max_message_call_gas frame0 =
      .ok ((frame0.gas_limit - frame0.gas_used)
        - (frame0.gas_limit - frame0.gas_used) / 64) := by
    unfold max_message_call_gas
    rw [if_neg (by omega)]
  have hic : frame0.increase_consumed_gas
      ((frame0.gas_limit - frame0.gas_used)
        - (frame0.gas_limit - frame0.gas_used) / 64) =
      .ok { frame0 with gas_used := frame0.gas_used
        + ((frame0.gas_limit - frame0.gas_used)
          - (frame0.gas_limit - frame0.gas_used) / 64) } := by
    unfold CallFrame.increase_consumed_gas
    rw [if_neg (by omega)]
  have hpush : stackPush frame0.stack CREATE_DEPLOYMENT_FAIL =
      .ok (CREATE_DEPLOYMENT_FAIL :: frame0.stack) := by
    unfold stackPush
    rw [if_neg (by omega)]
  unfold generic_create
  rw [if_neg (by simp [hstatic]), if_neg hsize, hm]
  dsimp only
  rw [hic]
  simp only [access_account]
  rw [if_neg hNoTrig, if_pos hColl]
  unfold increment_account_nonce
  dsimp only
  rw [if_neg (by omega)]
  simp only [hpush]

theorem generic_create_collision_bumps_nonce_keeps_gas_witness :
    generic_create wStoreColl Fork.cancun (fun _ _ => 77) (fun _ _ _ => 88)
      wState wFrame 0 0 0 none =
    .ok
      { state := { wState with cache := ainsert wState.cache wFrame.to_addr { get_account wStoreColl wState.cache wFrame.to_addr with nonce := (get_account wStoreColl wState.cache wFrame.to_addr).nonce + 1 }, substate := { wState.substate with touched_accounts := sinsert (sinsert wState.substate.touched_accounts wFrame.to_addr) 77 } }
        frame := { wFrame with sub_return_data := [], memory := (load_range wFrame.memory 0 0).2, gas_used := wFrame.gas_used + ((wFrame.gas_limit - wFrame.gas_used) - (wFrame.gas_limit - wFrame.gas_used) / 64), stack := CREATE_DEPLOYMENT_FAIL :: wFrame.stack }
        pushed := none
        pc_increment := 1 } :=
  generic_create_collision_bumps_nonce_keeps_gas wStoreColl Fork.cancun
    (fun _ _ => 77) (fun _ _ _ => 88) wState wFrame 0 0 0 none 77 (by decide)
    (by decide) (by decide) (by decide) (by decide) (by decide) (by decide)
    (by decide)

theorem sstore_refund_update_error_is_refund_error
    (fork : Fork) (slot : StorageSlot) (nv r : Nat) (e : VMError)
    (h : sstore_refund_update fork slot nv r = .error e) :
    e = .GasRefundsOverflow ∨ e = .GasRefundsUnderflow := by
  unfold sstore_refund_update at h
  dsimp only at h
  repeat' split at h
  all_goals (try (injection h with h; subst h; rename_i heq; repeat' split at heq))
  all_goals simp_all

theorem increase_consumed_gas_error {f : CallFrame} {d : Nat} {e : VMError}
    (h : f.increase_consumed_gas d = .error e) :
    e = .OutOfGas .ConsumedGasOverflow := by
  unfold CallFrame.increase_consumed_gas at h
  split at h
  · injection h with h
    exact h.symm
  · exact absurd h (by simp)

/-- C5: an SSTORE whose frame has at most the 2300-gas stipend remaining
fails with `OutOfGas(MaxGasLimitExceeded)` before touching any storage slot
or the refund counter (the embedded operation returns the error without
producing any state); with strictly more than 2300 gas remaining that error
is never produced. -/
theorem op_sstore_stipend_check
    (store : Store) (fork : Fork) (st0 : VMState) (frame0 : CallFrame)
    (k v : Nat) (rest : List Nat)
    (hstatic : frame0.is_static = false)
    (hstack : frame0.stack = k :: v :: rest)
    (hGU : frame0.gas_used ≤ frame0.gas_limit) :
    (frame0.gas_limit - frame0.gas_used ≤ SSTORE_STIPEND →
      op_sstore store fork st0 frame0 = .error (.OutOfGas .MaxGasLimitExceeded)) ∧
    (SSTORE_STIPEND < frame0.gas_limit - frame0.gas_used →
      op_sstore store fork st0 frame0 ≠ .error (.OutOfGas .MaxGasLimitExceeded)) := by
  constructor
  · intro hle
    unfold op_sstore
    rw [if_neg (by simp [hstatic]), hstack]
    dsimp only [stackPop]
    rw [if_neg (by omega), if_pos (by omega)]
  · intro hgt hcontra
    unfold op_sstore at hcontra
    rw [if_neg (by simp [hstatic]), hstack] at hcontra
    dsimp only [stackPop] at hcontra
    rw [if_neg (by omega), if_neg (by omega)] at hcontra
    generalize hacc :
      access_storage_slot store fork st0
        ({ frame0 with stack := rest } : CallFrame).to_addr k = acc at hcontra
    rcases hru : sstore_refund_update fork acc.1.1 v acc.2.refunded_gas with e | r
    · rw [hru] at hcontra
      dsimp only at hcontra
      injection hcontra with h'
      subst h'
      rcases sstore_refund_update_error_is_refund_error _ _ _ _ _ hru with h | h
      · exact absurd h (by simp)
      · exact absurd h (by simp)
    · rw [hru] at hcontra
      dsimp only at hcontra
      rcases hic : ({ frame0 with stack := rest } : CallFrame).increase_consumed_gas
          (sstore_cost acc.1.1 v acc.1.2 fork) with e2 | f2
      · rw [hic] at hcontra
        dsimp only at hcontra
        injection hcontra with h'
        subst h'
        have := increase_consumed_gas_error hic
        exact absurd this (by simp)
      · rw [hic] at hcontra
        dsimp only at hcontra
        exact absurd hcontra (by simp)

theorem op_sstore_stipend_check_witness :
    op_sstore wStore Fork.cancun wState wFrameSst =
      .error (.OutOfGas .MaxGasLimitExceeded) :=
  (op_sstore_stipend_check wStore Fork.cancun wState wFrameSst 1 2 []
    (by decide) (by decide) (by decide)).1 (by decide)

/-- C6: from Berlin on, the SSTORE refund `(remove_slot, restore_empty,
restore_slot)` triple is `(4800, 19900, 2800)`; for Constantinople it is
`(15000, 19800, 4800)` and for Istanbul-before-Berlin `(15000, 19200, 4200)`;
and for a slot with original value 0 written first to 1 and then back to 0 in
the same frame, the first SSTORE leaves the refund counter unchanged and the
second adds exactly 19900 to `refunded_gas`. -/
theorem sstore_refund_delta_triples
    (store : Store) (fork : Fork) (st0 : VMState) (frame0 : CallFrame)
    (k : Nat) (rest : List Nat)
    (hBerlin : Fork.berlin.rank ≤ fork.rank)
    (hstatic : frame0.is_static = false)
    (hstack : frame0.stack = k :: 1 :: k :: 0 :: rest)
    (hacct : alookup st0.cache frame0.to_addr = none)
    (hacctStore : store.getAccount frame0.to_addr = none)
    (htss : alookup st0.substate.touched_storage_slots frame0.to_addr = none)
    (hstore : store.getStorageSlot frame0.to_addr k = 0)
    (hGU0 : frame0.gas_used = 0)
    (hGL : 100000 ≤ frame0.gas_limit)
    (hRef : st0.refunded_gas + 19900 ≤ U64MAX) :
    sstore_refund_triple fork = (4800, 19900, 2800) ∧
    sstore_refund_triple Fork.constantinople = (15000, 19800, 4800) ∧
    sstore_refund_triple Fork.istanbul = (15000, 19200, 4200) ∧
    (op_sstore store fork st0 frame0).map (fun p => p.1.refunded_gas) =
      .ok st0.refunded_gas ∧
    (op_sstore_twice store fork st0 frame0).map (fun p => p.1.refunded_gas) =
      .ok (st0.refunded_gas + 19900) := by
  have hrank : (7 : Nat) ≤ fork.rank := by
    have h7 : Fork.berlin.rank = 7 := rfl
    omega
  have hnc : fork ≠ Fork.constantinople := by
    intro h
    rw [h, show Fork.constantinople.rank = 5 from rfl] at hrank
    omega
  have hni : ¬(fork.rank < Fork.istanbul.rank ∧ fork ≠ Fork.constantinople) := by
    intro h
    have h1 := h.1
    rw [show Fork.istanbul.rank = 6 from rfl] at h1
    omega
  have hist : Fork.istanbul.rank ≤ fork.rank := by
    rw [show Fork.istanbul.rank = 6 from rfl]
    omega
  -- step 1: the access of the fresh slot
  have hacc1 : access_storage_slot store fork st0 frame0.to_addr k =
      ((⟨0, 0⟩, true),
        { st0 with
          cache := ainsert st0.cache frame0.to_addr { balance := 0, nonce := 0, code := [], storage := [(k, ⟨0, 0⟩)] }
          substate := { st0.substate with touched_storage_slots := ainsert st0.substate.touched_storage_slots frame0.to_addr [k] } }) := by
    unfold access_storage_slot slotInsertNew withAccountMut get_account
    rw [if_pos hBerlin, htss, hacct, hacctStore, hstore]
    rfl
  have hrefund1 : sstore_refund_update fork ⟨0, 0⟩ 1 st0.refunded_gas =
      .ok st0.refunded_gas := by
    unfold sstore_refund_update
    dsimp only
    rw [if_neg hni, if_pos ⟨Or.inr hist, by simp⟩, if_pos rfl, if_neg (by simp)]
  have hcost1 : sstore_cost ⟨0, 0⟩ 1 true fork = 22100 := by
    unfold sstore_cost
    rw [if_pos hBerlin]
    norm_num
  have c1 : ¬(frame0.gas_limit < frame0.gas_used) := by omega
  have c2 : ¬(frame0.gas_limit - frame0.gas_used ≤ 2300) := by omega
  have c3 : ¬(frame0.gas_limit < frame0.gas_used + 22100) := by omega
  have hstep1 : op_sstore store fork st0 frame0 =
      .ok
        ({ st0 with
            cache := ainsert st0.cache frame0.to_addr { balance := 0, nonce := 0, code := [], storage := [(k, ⟨0, 1⟩)] }
            substate := { st0.substate with touched_storage_slots := ainsert st0.substate.touched_storage_slots frame0.to_addr [k] } },
         { frame0 with stack := k :: 0 :: rest, gas_used := frame0.gas_used + 22100 }) := by
    unfold op_sstore
    rw [if_neg (by simp [hstatic]), hstack]
    dsimp only [stackPop]
    rw [if_neg c1, if_neg (by rw [show SSTORE_STIPEND = 2300 from rfl]; exact c2)]
    rw [hacc1]
    dsimp only
    rw [hrefund1]
    dsimp only
    rw [hcost1]
    unfold CallFrame.increase_consumed_gas
    dsimp only
    rw [if_neg c3]
    dsimp only
    unfold update_account_storage withAccountMut get_account
    rw [alookup_ainsert_self]
    simp [alookup, ainsert, ainsert_ainsert]
  have htriple : sstore_refund_triple fork = (4800, 19900, 2800) := by
    unfold sstore_refund_triple
    rw [if_neg hnc, if_neg (by intro h; have h2 := h.2; rw [show Fork.berlin.rank = 7 from rfl] at h2; omega)]
  have hacc2 : access_storage_slot store fork ({ st0 with
            cache := ainsert st0.cache frame0.to_addr { balance := 0, nonce := 0, code := [], storage := [(k, ⟨0, 1⟩)] }
            substate := { st0.substate with touched_storage_slots := ainsert st0.substate.touched_storage_slots frame0.to_addr [k] } }) frame0.to_addr k =
      ((⟨0, 1⟩, false), { st0 with
            cache := ainsert st0.cache frame0.to_addr { balance := 0, nonce := 0, code := [], storage := [(k, ⟨0, 1⟩)] }
            substate := { st0.substate with touched_storage_slots := ainsert st0.substate.touched_storage_slots frame0.to_addr [k] } }) := by
    unfold access_storage_slot slotInsertNew withAccountMut get_account
    rw [if_pos hBerlin]
    dsimp only
    rw [alookup_ainsert_self, alookup_ainsert_self]
    simp [alookup, ainsert, ainsert_ainsert]
  have hrefund2 : sstore_refund_update fork ⟨0, 1⟩ 0 st0.refunded_gas =
      .ok (st0.refunded_gas + 19900) := by
    unfold sstore_refund_update
    dsimp only
    rw [htriple]
    rw [if_neg hni, if_pos ⟨Or.inr hist, by simp⟩, if_neg (by simp), if_neg (by simp)]
    dsimp only
    rw [if_pos rfl, if_pos rfl, if_neg (by omega)]
  have hcost2 : sstore_cost ⟨0, 1⟩ 0 false fork = 100 := by
    unfold sstore_cost
    rw [if_pos hBerlin]
    norm_num
  have c4 : ¬(frame0.gas_limit < frame0.gas_used + 22100) := by omega
  have c5 : ¬(frame0.gas_limit - (frame0.gas_used + 22100) ≤ 2300) := by omega
  have c6 : ¬(frame0.gas_limit < frame0.gas_used + 22100 + 100) := by omega
  have hstep2 : op_sstore store fork ({ st0 with
            cache := ainsert st0.cache frame0.to_addr { balance := 0, nonce := 0, code := [], storage := [(k, ⟨0, 1⟩)] }
            substate := { st0.substate with touched_storage_slots := ainsert st0.substate.touched_storage_slots frame0.to_addr [k] } }) ({ frame0 with stack := k :: 0 :: rest, gas_used := frame0.gas_used + 22100 }) =
      .ok ({ st0 with
            cache := ainsert st0.cache frame0.to_addr { balance := 0, nonce := 0, code := [], storage := [(k, ⟨0, 0⟩)] }
            substate := { st0.substate with touched_storage_slots := ainsert st0.substate.touched_storage_slots frame0.to_addr [k] }
            refunded_gas := st0.refunded_gas + 19900 }, { frame0 with stack := rest, gas_used := frame0.gas_used + 22100 + 100 }) := by
    unfold op_sstore
    rw [if_neg (by simp [hstatic])]
    dsimp only [stackPop]
    rw [if_neg c4, if_neg (by rw [show SSTORE_STIPEND = 2300 from rfl]; exact c5)]
    rw [hacc2]
    dsimp only
    rw [hrefund2]
    dsimp only
    rw [hcost2]
    unfold CallFrame.increase_consumed_gas
    dsimp only
    rw [if_neg c6]
    dsimp only
    unfold update_account_storage withAccountMut get_account
    rw [alookup_ainsert_self]
    simp [alookup, ainsert, ainsert_ainsert]
  refine ⟨htriple, by decide, by decide, ?_, ?_⟩
  · rw [hstep1]
    rfl
  · unfold op_sstore_twice
    rw [hstep1]
    dsimp only
    rw [hstep2]
    rfl



theorem sstore_refund_delta_triples_witness :
    sstore_refund_triple Fork.berlin = (4800, 19900, 2800) ∧
    sstore_refund_triple Fork.constantinople = (15000, 19800, 4800) ∧
    sstore_refund_triple Fork.istanbul = (15000, 19200, 4200) ∧
    (op_sstore wStore Fork.berlin wState wFrameDouble).map (fun p => p.1.refunded_gas) =
      .ok wState.refunded_gas ∧
    (op_sstore_twice wStore Fork.berlin wState wFrameDouble).map (fun p => p.1.refunded_gas) =
      .ok (wState.refunded_gas + 19900) :=
  sstore_refund_delta_triples wStore Fork.berlin wState wFrameDouble 5 []
    (by decide) (by decide) (by decide) (by decide) (by decide) (by decide)
    (by decide) (by decide) (by decide) (by decide)

theorem cachedSlot_original_after_step (store : Store) (fork : Fork)
    (op : StorageOp) (st : VMState) (a k : Nat) (slot : StorageSlot)
    (hslot : cachedSlot st a k = some slot) :
    (cachedSlot (storage_step store fork st op) a k).map
      (fun s => s.original_value) = some slot.original_value := by
  unfold cachedSlot at hslot
  rcases hc : alookup st.cache a with _ | acc
  · rw [hc] at hslot
    simp at hslot
  · rw [hc] at hslot
    dsimp only at hslot
    cases op with
    | access a2 k2 =>
      unfold storage_step access_storage_slot withAccountMut get_account cachedSlot
      dsimp only
      by_cases ha : a2 = a
      · subst ha
        rw [alookup_ainsert_self, hc]
        dsimp only
        by_cases hk : k2 = k
        · subst hk
          rw [alookup_ainsert_self]
          rw [hslot]
          rfl
        · rw [alookup_ainsert_ne _ _ _ _ hk, hslot]
          rfl
      · rw [alookup_ainsert_ne _ _ _ _ ha, hc]
        dsimp only
        rw [hslot]
        rfl
    | update a2 k2 v =>
      unfold storage_step update_account_storage withAccountMut get_account cachedSlot
      dsimp only
      by_cases ha : a2 = a
      · subst ha
        rw [alookup_ainsert_self, hc]
        dsimp only
        by_cases hk : k2 = k
        · subst hk
          rw [alookup_ainsert_self, hslot]
          rfl
        · rw [alookup_ainsert_ne _ _ _ _ hk, hslot]
          rfl
      · rw [alookup_ainsert_ne _ _ _ _ ha, hc]
        dsimp only
        rw [hslot]
        rfl

theorem cachedSlot_original_frozen_run (store : Store) (fork : Fork) :
    ∀ (ops : List StorageOp) (st : VMState) (a k : Nat) (slot : StorageSlot),
    cachedSlot st a k = some slot →
    (cachedSlot (storage_run store fork ops st) a k).map
      (fun s => s.original_value) = some slot.original_value := by
  intro ops
  induction ops with
  | nil =>
    intro st a k slot h
    simp [storage_run, h]
  | cons op rest ih =>
    intro st a k slot h
    have hstep := cachedSlot_original_after_step store fork op st a k slot h
    rcases Option.map_eq_some'.mp hstep with ⟨slot2, ho, horig⟩
    have hrun := ih (storage_step store fork st op) a k slot2 ho
    unfold storage_run
    rw [hrun, horig]

/-- C9: a slot's `original_value` never changes after its first access in a
transaction.  A first access through `access_storage_slot` returns and caches
the slot with `original_value = current_value =` the stored value; any later
sequence of `access_storage_slot` / `update_account_storage` operations keeps
the slot cached with the same `original_value`; and `update_account_storage`
rewrites only `current_value` of a cached slot. -/
theorem original_value_frozen_after_first_access (store : Store) (fork : Fork) :
    (∀ (st : VMState) (addr key : Nat), cachedSlot st addr key = none →
      (access_storage_slot store fork st addr key).1.1 =
        ⟨store.getStorageSlot addr key, store.getStorageSlot addr key⟩ ∧
      cachedSlot (access_storage_slot store fork st addr key).2 addr key =
        some ⟨store.getStorageSlot addr key, store.getStorageSlot addr key⟩) ∧
    (∀ (st : VMState) (addr key v : Nat) (slot : StorageSlot),
      cachedSlot st addr key = some slot →
      cachedSlot (update_account_storage store st addr key v) addr key =
        some ⟨slot.original_value, v⟩) ∧
    (∀ (ops : List StorageOp) (st : VMState) (addr key : Nat) (slot : StorageSlot),
      cachedSlot st addr key = some slot →
      (cachedSlot (storage_run store fork ops st) addr key).map
        (fun s => s.original_value) = some slot.original_value) := by
  refine ⟨?_, ?_, cachedSlot_original_frozen_run store fork⟩
  · intro st addr key h
    unfold cachedSlot at h
    rcases hc : alookup st.cache addr with _ | acc
    · unfold access_storage_slot withAccountMut get_account cachedSlot
      dsimp only
      rw [hc]
      dsimp only
      rw [alookup_ainsert_self]
      dsimp only
      rw [alookup_ainsert_self]
      exact ⟨rfl, rfl⟩
    · rw [hc] at h
      dsimp only at h
      unfold access_storage_slot withAccountMut get_account cachedSlot
      dsimp only
      rw [hc]
      dsimp only
      rw [h]
      dsimp only
      rw [alookup_ainsert_self]
      dsimp only
      rw [alookup_ainsert_self]
      exact ⟨rfl, rfl⟩
  · intro st addr key v slot h
    unfold cachedSlot at h
    rcases hc : alookup st.cache addr with _ | acc
    · rw [hc] at h
      simp at h
    · rw [hc] at h
      dsimp only at h
      unfold update_account_storage withAccountMut get_account cachedSlot
      dsimp only
      rw [hc]
      dsimp only
      rw [h]
      dsimp only
      rw [alookup_ainsert_self]
      dsimp only
      rw [alookup_ainsert_self]

theorem original_value_frozen_after_first_access_witness :
    ((access_storage_slot wStore Fork.berlin wState 3 4).1.1 =
        ⟨wStore.getStorageSlot 3 4, wStore.getStorageSlot 3 4⟩ ∧
      cachedSlot (access_storage_slot wStore Fork.berlin wState 3 4).2 3 4 =
        some ⟨wStore.getStorageSlot 3 4, wStore.getStorageSlot 3 4⟩) ∧
    (cachedSlot (update_account_storage wStore wSlotState 3 4 9) 3 4 =
        some ⟨7, 9⟩) ∧
    ((cachedSlot (storage_run wStore Fork.berlin
        [StorageOp.access 3 4, StorageOp.update 3 4 9] wSlotState) 3 4).map
      (fun s => s.original_value) = some 7) := by
  have h := original_value_frozen_after_first_access wStore Fork.berlin
  exact ⟨h.1 wState 3 4 (by decide), h.2.1 wSlotState 3 4 9 ⟨7, 8⟩ (by decide),
    h.2.2 [StorageOp.access 3 4, StorageOp.update 3 4 9] wSlotState 3 4 ⟨7, 8⟩ (by decide)⟩

/-- C10: a RETURNDATACOPY with size 0 but a return-data offset strictly
greater than the length of `sub_return_data` fails with `OutOfBounds`: the
early success applies only when both the size and the offset are 0, otherwise
`returndata_offset + size ≤ len(sub_return_data)` is enforced even for empty
copies. -/
theorem op_returndatacopy_empty_copy_oob
    (fork : Fork) (frame0 : CallFrame) (dest rdoff : Nat) (rest : List Nat)
    (hf : Fork.byzantium.rank ≤ fork.rank)
    (hstack : frame0.stack = dest :: rdoff :: 0 :: rest)
    (hrdoff : rdoff < 2 ^ 64)
    (hpos : frame0.sub_return_data.length < rdoff)
    (hgas : frame0.gas_used + 3 ≤ frame0.gas_limit) :
    op_returndatacopy fork frame0 = .error .OutOfBounds := by
  have hcost : copy_cost (calculate_memory_size dest 0) frame0.memory.length 0 = 3 := by
    unfold copy_cost calculate_memory_size memory_expansion_cost
    simp
  have hbyz : Fork.byzantium.rank = 4 := rfl
  unfold op_returndatacopy
  rw [if_neg (by omega), hstack]
  dsimp only [stackPop]
  unfold toUsize
  rw [if_pos hrdoff, if_pos (by norm_num)]
  dsimp only
  rw [hcost]
  unfold CallFrame.increase_consumed_gas
  dsimp only
  rw [if_neg (by omega)]
  dsimp only
  rw [if_neg (by rintro ⟨-, h⟩; omega)]
  rw [if_neg (by omega)]
  rw [if_pos (by omega)]

theorem op_returndatacopy_empty_copy_oob_witness :
    op_returndatacopy Fork.cancun wFrameRdc = .error .OutOfBounds :=
  op_returndatacopy_empty_copy_oob Fork.cancun wFrameRdc 0 5 []
    (by decide) (by decide) (by decide) (by decide) (by decide)

theorem getD_replicate_zero (n j : Nat) :
    (List.replicate n (0 : Nat)).getD j 0 = 0 := by
  induction n generalizing j with
  | zero => rfl
  | succ n ih =>
    cases j with
    | zero => rfl
    | succ j => exact ih j

theorem length_copyWithZeroFill (source : List Nat) (off size : Nat) :
    (copyWithZeroFill source off size).length = size := by
  unfold copyWithZeroFill
  dsimp only
  rw [List.length_append, List.length_replicate]
  have h := List.length_take size (source.drop off)
  omega

theorem getD_copyWithZeroFill_zero (source : List Nat) (off size i : Nat)
    (hi : i < size) (h : source.length ≤ off + i) :
    (copyWithZeroFill source off size).getD i 0 = 0 := by
  unfold copyWithZeroFill
  dsimp only
  have hlen : ((source.drop off).take size).length ≤ i := by
    rw [List.length_take, List.length_drop]
    omega
  rw [List.getD_append_right _ _ _ _ hlen, getD_replicate_zero]

theorem expandMem_length (mem : List Nat) (n : Nat) :
    n ≤ (expandMem mem n).length := by
  unfold expandMem
  split
  · rw [List.length_append, List.length_replicate]
    omega
  · omega

theorem roundUp32_ge (n : Nat) : n ≤ roundUp32 n := by
  unfold roundUp32
  omega

theorem getD_try_store_data (mem : List Nat) (off : Nat) (data : List Nat)
    (i : Nat) (hi : i < data.length) :
    (try_store_data mem off data).getD (off + i) 0 = data.getD i 0 := by
  unfold try_store_data
  rw [if_neg (by omega)]
  dsimp only
  have hm : off + data.length ≤ (expandMem mem (roundUp32 (off + data.length))).length :=
    le_trans (roundUp32_ge _) (expandMem_length _ _)
  have htake : ((expandMem mem (roundUp32 (off + data.length))).take off).length = off := by
    rw [List.length_take]
    omega
  rw [List.getD_append _ _ _ _ (by rw [List.length_append, htake]; omega)]
  rw [List.getD_append_right _ _ _ _ (by rw [htake]; omega)]
  rw [htake]
  have hidx : off + i - off = i := by omega
  rw [hidx]

/-- C7 is refuted on RETURNDATACOPY: with empty `sub_return_data`, source
offset 0 and size 1, the operation does not zero-fill and succeed — it fails
with `OutOfBounds`. -/
theorem returndatacopy_refutes_zero_fill :
    op_returndatacopy Fork.cancun wFrameRdcTrunc = .error .OutOfBounds := rfl

/-- C7 (amended): for CALLDATACOPY, CODECOPY and EXTCODECOPY with non-zero
size, the operation succeeds and every byte written to memory beyond the end
of the source reads as zero; RETURNDATACOPY instead enforces
`returndata_offset + size ≤ len(sub_return_data)` and fails with
`OutOfBounds` whenever the requested non-empty range (representable in
`usize`) extends past the sub-return data, and with `VeryLargeNumber` when
`returndata_offset + size` overflows `usize`. -/
theorem copy_opcodes_zero_fill_except_returndatacopy :
    (∀ (frame0 : CallFrame) (dest off size : Nat) (rest : List Nat) (i : Nat),
      frame0.stack = dest :: off :: size :: rest →
      size ≠ 0 → size < 2 ^ 64 →
      frame0.gas_used + copy_cost (calculate_memory_size dest size) frame0.memory.length size ≤ frame0.gas_limit →
      i < size → frame0.calldata.length ≤ off + i →
      (op_calldatacopy frame0).map (fun f => f.memory.getD (dest + i) 0) = .ok 0) ∧
    (∀ (frame0 : CallFrame) (dest off size : Nat) (rest : List Nat) (i : Nat),
      frame0.stack = dest :: off :: size :: rest →
      size ≠ 0 → size < 2 ^ 64 →
      frame0.gas_used + copy_cost (calculate_memory_size dest size) frame0.memory.length size ≤ frame0.gas_limit →
      i < size → frame0.bytecode.length ≤ off + i →
      (op_codecopy frame0).map (fun f => f.memory.getD (dest + i) 0) = .ok 0) ∧
    (∀ (store : Store) (fork : Fork) (st0 : VMState) (frame0 : CallFrame)
       (addrw dest off size : Nat) (rest : List Nat) (i : Nat),
      frame0.stack = addrw :: dest :: off :: size :: rest →
      size ≠ 0 → size < 2 ^ 64 →
      frame0.gas_used + extcodecopy_cost size (calculate_memory_size dest size) frame0.memory.length (!(decide (word_to_address addrw ∈ st0.substate.touched_accounts))) fork ≤ frame0.gas_limit →
      i < size → (get_account store st0.cache (word_to_address addrw)).code.length ≤ off + i →
      (op_extcodecopy store fork st0 frame0).map (fun p => p.2.memory.getD (dest + i) 0) = .ok 0) ∧
    (∀ (fork : Fork) (frame0 : CallFrame) (dest off size : Nat) (rest : List Nat),
      Fork.byzantium.rank ≤ fork.rank →
      frame0.stack = dest :: off :: size :: rest →
      size ≠ 0 → off < 2 ^ 64 → size < 2 ^ 64 → off + size < 2 ^ 64 →
      frame0.gas_used + copy_cost (calculate_memory_size dest size) frame0.memory.length size ≤ frame0.gas_limit →
      frame0.sub_return_data.length < off + size →
      op_returndatacopy fork frame0 = .error .OutOfBounds) ∧
    (∀ (fork : Fork) (frame0 : CallFrame) (dest off size : Nat) (rest : List Nat),
      Fork.byzantium.rank ≤ fork.rank →
      frame0.stack = dest :: off :: size :: rest →
      off < 2 ^ 64 → size < 2 ^ 64 → 2 ^ 64 ≤ off + size →
      frame0.gas_used + copy_cost (calculate_memory_size dest size) frame0.memory.length size ≤ frame0.gas_limit →
      op_returndatacopy fork frame0 = .error .VeryLargeNumber) := by
  refine ⟨?_, ?_, ?_, ?_, ?_⟩
  · intro frame0 dest off size rest i hstack hsz hsz64 hgas hi hbeyond
    unfold op_calldatacopy
    rw [hstack]
    dsimp only [stackPop]
    unfold toUsize
    rw [if_pos hsz64]
    dsimp only
    unfold CallFrame.increase_consumed_gas
    dsimp only
    rw [if_neg (by omega)]
    dsimp only
    rw [if_neg hsz]
    by_cases hco : frame0.calldata.length < off
    · rw [if_pos hco]
      dsimp only [Except.map]
      rw [getD_try_store_data _ _ _ i (by rw [List.length_replicate]; exact hi)]
      rw [getD_replicate_zero]
    · rw [if_neg hco]
      dsimp only [Except.map]
      rw [getD_try_store_data _ _ _ i (by rw [length_copyWithZeroFill]; exact hi)]
      rw [getD_copyWithZeroFill_zero _ _ _ _ hi hbeyond]
  · intro frame0 dest off size rest i hstack hsz hsz64 hgas hi hbeyond
    unfold op_codecopy
    rw [hstack]
    dsimp only [stackPop]
    unfold toUsize
    rw [if_pos hsz64]
    dsimp only
    unfold CallFrame.increase_consumed_gas
    dsimp only
    rw [if_neg (by omega)]
    dsimp only
    rw [if_neg hsz]
    by_cases hco : off < frame0.bytecode.length
    · rw [if_pos hco]
      dsimp only [Except.map]
      rw [getD_try_store_data _ _ _ i (by rw [length_copyWithZeroFill]; exact hi)]
      rw [getD_copyWithZeroFill_zero _ _ _ _ hi hbeyond]
    · rw [if_neg hco]
      dsimp only [Except.map]
      rw [getD_try_store_data _ _ _ i (by rw [List.length_replicate]; exact hi)]
      rw [getD_replicate_zero]
  · intro store fork st0 frame0 addrw dest off size rest i hstack hsz hsz64 hgas hi hbeyond
    unfold op_extcodecopy
    rw [hstack]
    dsimp only [stackPop]
    unfold toUsize
    rw [if_pos hsz64]
    dsimp only
    simp only [access_account]
    unfold CallFrame.increase_consumed_gas
    dsimp only
    rw [if_neg (by omega)]
    dsimp only
    rw [if_neg hsz]
    by_cases hco : off < (get_account store st0.cache (word_to_address addrw)).code.length
    · rw [if_pos hco]
      dsimp only [Except.map]
      rw [getD_try_store_data _ _ _ i (by rw [length_copyWithZeroFill]; exact hi)]
      rw [getD_copyWithZeroFill_zero _ _ _ _ hi hbeyond]
    · rw [if_neg hco]
      dsimp only [Except.map]
      rw [getD_try_store_data _ _ _ i (by rw [List.length_replicate]; exact hi)]
      rw [getD_replicate_zero]
  · intro fork frame0 dest off size rest hf hstack hsz hoff64 hsz64 hsum hgas hlen
    have hbyz : Fork.byzantium.rank = 4 := rfl
    unfold op_returndatacopy
    rw [if_neg (by omega), hstack]
    dsimp only [stackPop]
    unfold toUsize
    rw [if_pos hoff64, if_pos hsz64]
    dsimp only
    unfold CallFrame.increase_consumed_gas
    dsimp only
    rw [if_neg (by omega)]
    dsimp only
    rw [if_neg (by rintro ⟨h, -⟩; exact hsz h)]
    rw [if_neg (by omega)]
    rw [if_pos (by omega)]
  · intro fork frame0 dest off size rest hf hstack hoff64 hsz64 hsum hgas
    have hbyz : Fork.byzantium.rank = 4 := rfl
    unfold op_returndatacopy
    rw [if_neg (by omega), hstack]
    dsimp only [stackPop]
    unfold toUsize
    rw [if_pos hoff64, if_pos hsz64]
    dsimp only
    unfold CallFrame.increase_consumed_gas
    dsimp only
    rw [if_neg (by omega)]
    dsimp only
    rw [if_neg (by rintro ⟨h1, h2⟩; omega)]
    rw [if_pos (by omega)]

theorem copy_opcodes_zero_fill_except_returndatacopy_witness :
    (op_calldatacopy wFrameCdc).map (fun f => f.memory.getD (0 + 0) 0) = .ok 0 ∧
    op_returndatacopy Fork.cancun wFrameRdcTrunc = .error .OutOfBounds ∧
    op_returndatacopy Fork.cancun wFrameRdcOver = .error .VeryLargeNumber :=
  ⟨copy_opcodes_zero_fill_except_returndatacopy.1 wFrameCdc 0 10 4 [] 0
    (by decide) (by decide) (by decide) (by decide) (by decide) (by decide),
   copy_opcodes_zero_fill_except_returndatacopy.2.2.2.1 Fork.cancun wFrameRdcTrunc
    0 0 1 [] (by decide) (by decide) (by decide) (by decide) (by decide)
    (by decide) (by decide) (by decide),
   copy_opcodes_zero_fill_except_returndatacopy.2.2.2.2 Fork.cancun wFrameRdcOver
    0 (2 ^ 64 - 1) 1 [] (by decide) (by decide) (by decide) (by decide)
    (by decide) (by decide)⟩

theorem get_account_ainsert_self (store : Store) (c : List (Nat × Account))
    (a : Nat) (acc : Account) : get_account store (ainsert c a acc) a = acc := by
  unfold get_account
  rw [alookup_ainsert_self]

theorem get_account_ainsert_ne (store : Store) (c : List (Nat × Account))
    (a b : Nat) (acc : Account) (h : a ≠ b) :
    get_account store (ainsert c a acc) b = get_account store c b := by
  unfold get_account
  rw [alookup_ainsert_ne _ _ _ _ h]

/-- C8: a SELFDESTRUCT on a fork from Cancun onwards in a non-static frame
transfers the executing account's entire balance to the target; the account
is inserted into `selfdestruct_set` and its balance zeroed (even when the
target is itself) precisely when it is in this transaction's
`created_accounts`; otherwise the account persists in the cache with the
`selfdestruct_set` unchanged. -/
theorem op_selfdestruct_cancun_semantics
    (store : Store) (fork : Fork) (st0 : VMState) (frame0 : CallFrame)
    (w : Nat) (rest : List Nat)
    (hf : Fork.cancun.rank ≤ fork.rank)
    (hstatic : frame0.is_static = false)
    (hstack : frame0.stack = w :: rest)
    (hgas : frame0.gas_used + selfdestruct_cost (!(decide (word_to_address w ∈ st0.substate.touched_accounts))) (get_account store st0.cache (word_to_address w)).is_empty (get_account store st0.cache frame0.to_addr).balance fork ≤ frame0.gas_limit)
    (hOver : (get_account store st0.cache (word_to_address w)).balance + (get_account store st0.cache frame0.to_addr).balance < U256MOD) :
    (word_to_address w ≠ frame0.to_addr →
      (op_selfdestruct store fork st0 frame0).map (fun p =>
        ((get_account store p.1.cache (word_to_address w)).balance,
         (get_account store p.1.cache frame0.to_addr).balance,
         p.1.substate.selfdestruct_set,
         (alookup p.1.cache frame0.to_addr).isSome)) =
      .ok ((get_account store st0.cache (word_to_address w)).balance + (get_account store st0.cache frame0.to_addr).balance,
           0,
           (if frame0.to_addr ∈ st0.substate.created_accounts then sinsert st0.substate.selfdestruct_set frame0.to_addr else st0.substate.selfdestruct_set),
           true)) ∧
    (word_to_address w = frame0.to_addr →
      (op_selfdestruct store fork st0 frame0).map (fun p =>
        ((get_account store p.1.cache frame0.to_addr).balance,
         p.1.substate.selfdestruct_set,
         (alookup p.1.cache frame0.to_addr).isSome)) =
      .ok ((if frame0.to_addr ∈ st0.substate.created_accounts then 0 else (get_account store st0.cache frame0.to_addr).balance),
           (if frame0.to_addr ∈ st0.substate.created_accounts then sinsert st0.substate.selfdestruct_set frame0.to_addr else st0.substate.selfdestruct_set),
           true)) := by
  have hsd : Fork.spuriousDragon.rank ≤ fork.rank := by
    have h1 : Fork.cancun.rank = 10 := rfl
    have h2 : Fork.spuriousDragon.rank = 3 := rfl
    omega
  constructor
  · intro hne
    unfold op_selfdestruct
    rw [if_neg (by simp [hstatic]), hstack]
    dsimp only [stackPop]
    simp only [access_account]
    rw [if_pos hsd]
    unfold CallFrame.increase_consumed_gas
    dsimp only
    rw [if_neg (by omega)]
    dsimp only
    rw [if_pos hf]
    unfold increase_account_balance
    dsimp only
    rw [if_neg (by omega)]
    dsimp only
    unfold decrease_account_balance
    dsimp only
    rw [get_account_ainsert_ne _ _ _ _ _ hne]
    rw [if_neg (by omega)]
    dsimp only
    by_cases hcr : frame0.to_addr ∈ st0.substate.created_accounts
    · rw [if_pos hcr]
      dsimp only
      split
      all_goals (
        dsimp only [Except.map]
        unfold withAccountMut
        rw [get_account_ainsert_self, ainsert_ainsert]
        rw [get_account_ainsert_ne _ _ _ _ _ (Ne.symm hne), get_account_ainsert_self,
            get_account_ainsert_self]
        simp [alookup_ainsert_self])
    · rw [if_neg hcr]
      dsimp only
      split
      all_goals (
        dsimp only [Except.map]
        rw [get_account_ainsert_ne _ _ _ _ _ (Ne.symm hne), get_account_ainsert_self,
            get_account_ainsert_self]
        simp [alookup_ainsert_self])
  · intro hw
    rw [hw] at hgas hOver
    unfold op_selfdestruct
    rw [if_neg (by simp [hstatic]), hstack]
    dsimp only [stackPop]
    rw [hw]
    simp only [access_account]
    rw [if_pos hsd]
    unfold CallFrame.increase_consumed_gas
    dsimp only
    rw [if_neg (by omega)]
    dsimp only
    rw [if_pos hf]
    unfold increase_account_balance
    dsimp only
    rw [if_neg (by omega)]
    dsimp only
    unfold decrease_account_balance
    dsimp only
    rw [get_account_ainsert_self]
    dsimp only
    rw [if_neg (by omega)]
    dsimp only
    by_cases hcr : frame0.to_addr ∈ st0.substate.created_accounts
    · rw [if_pos hcr]
      dsimp only
      split
      all_goals (
        dsimp only [Except.map]
        simp [withAccountMut, get_account_ainsert_self, ainsert_ainsert,
          alookup_ainsert_self, Nat.add_sub_cancel])
    · rw [if_neg hcr]
      dsimp only
      split
      all_goals (
        dsimp only [Except.map]
        simp [withAccountMut, get_account_ainsert_self, ainsert_ainsert,
          alookup_ainsert_self, Nat.add_sub_cancel])


theorem op_selfdestruct_cancun_semantics_witness :
    (op_selfdestruct wStore Fork.cancun wState wFrameSelf).map (fun p =>
      ((get_account wStore p.1.cache (word_to_address 9)).balance,
       (get_account wStore p.1.cache wFrameSelf.to_addr).balance,
       p.1.substate.selfdestruct_set,
       (alookup p.1.cache wFrameSelf.to_addr).isSome)) =
    .ok ((get_account wStore wState.cache (word_to_address 9)).balance + (get_account wStore wState.cache wFrameSelf.to_addr).balance,
         0,
         (if wFrameSelf.to_addr ∈ wState.substate.created_accounts then sinsert wState.substate.selfdestruct_set wFrameSelf.to_addr else wState.substate.selfdestruct_set),
         true) :=
  (op_selfdestruct_cancun_semantics wStore Fork.cancun wState wFrameSelf 9 []
    (by decide) (by decide) (by decide) (by decide) (by decide)).1 (by decide)

theorem restore_state_restores_frame_entry_witness :
    (restore_state wState wBackup).cache = wOutcome.state.cache ∧
    (restore_state wState wBackup).substate = wOutcome.state.substate ∧
    (restore_state wState wBackup).refunded_gas = wOutcome.state.refunded_gas ∧
    (restore_state wState wBackup).transient_storage = wOutcome.state.transient_storage :=
  restore_state_restores_frame_entry.1 wStore wState wFrame 1000 0 1 2 2
    false false 0 0 0 0 [0] false wOutcome wChild wRd wBackup wState rfl rfl

end Levm
